import Mathlib

/-!
Verification of the surgical-case registry core
(`src/surgibot/registry_patient_connect.py`): case records, the operative
lifecycle state machine, the OR-assignment resolver, and the dispatch
auto-finish sweep, shallowly embedded in Lean 4.

Conventions of the embedding:
* Python `str` is `String`, Python `int` is `Int` (or `Nat` where the source
  value is provably non-negative), Python lists are `List`.
* Python dicts with a fixed key set become structures; dicts used as lookup
  tables become association lists iterated in insertion order.
* `datetime.date` is `PyDate` (year/month/day), `datetime.datetime` is
  `PyDateTime`; `datetime.now()` becomes an explicit `now` parameter.
* Functions that may raise and be caught return `Option`.
-/

namespace Surgibot

/-- Split a character list at every occurrence of `sep` (Python
`str.split(sep)` semantics: n separators yield n + 1 pieces).  Structural
recursion so that it evaluates inside the kernel. -/
def splitCharAux (sep : Char) : List Char → List Char → List (List Char)
  | [], acc => [acc.reverse]
  | c :: rest, acc =>
    if c = sep then acc.reverse :: splitCharAux sep rest []
    else splitCharAux sep rest (c :: acc)

/-- Python `s.split(sep)` for a one-character separator. -/
def strSplitOnChar (sep : Char) (s : String) : List String :=
  (splitCharAux sep s.data []).map (fun l => (⟨l⟩ : String))

/-- Split at whitespace characters (pieces still to be filtered). -/
def splitWsAux : List Char → List Char → List (List Char)
  | [], acc => [acc.reverse]
  | c :: rest, acc =>
    if c.isWhitespace then acc.reverse :: splitWsAux rest []
    else splitWsAux rest (c :: acc)

/-- Model of Python `str.split()` with no argument: split on whitespace runs,
dropping empty pieces. -/
def splitWs (s : String) : List String :=
  ((splitWsAux s.data []).map (fun l => (⟨l⟩ : String))).filter (fun p => p ≠ "")

/-- `sep.join(parts)`. -/
def joinSep (sep : String) : List String → String
  | [] => ""
  | [x] => x
  | x :: xs => x ++ sep ++ joinSep sep xs

/-- Model of `" ".join(s.split())`: collapse internal whitespace and strip. -/
def collapseWs (s : String) : String :=
  joinSep " " (splitWs s)

/-- Python `str.strip()`: drop leading and trailing whitespace. -/
def pyTrim (s : String) : String :=
  ⟨((s.data.dropWhile Char.isWhitespace).reverse.dropWhile Char.isWhitespace).reverse⟩

/-- Python `str.lower()` (ASCII case, sufficient for the strings compared). -/
def toLowerStr (s : String) : String := ⟨s.data.map Char.toLower⟩

/-- Python `str.upper()` (ASCII case, sufficient for the strings compared). -/
def toUpperStr (s : String) : String := ⟨s.data.map Char.toUpper⟩

/-- Model of Python `int(s)` on strings: strip surrounding whitespace, accept
an optional single sign followed by one or more ASCII digits; any other text
raises `ValueError`, modelled as `none`. -/
def pyInt? (s : String) : Option Int :=
  let t := ((s.data.dropWhile Char.isWhitespace).reverse.dropWhile Char.isWhitespace).reverse
  let signDigits : Int × List Char :=
    match t with
    | '-' :: rest => (-1, rest)
    | '+' :: rest => (1, rest)
    | _ => (1, t)
  if !signDigits.2.isEmpty && signDigits.2.all Char.isDigit then
    some (signDigits.1 *
      (signDigits.2.foldl (fun a c => a * 10 + (c.toNat - 48)) (0 : Nat) : Nat))
  else none

/-- A Python `datetime.date`: proleptic Gregorian year/month/day. -/
structure PyDate where
  year : Nat
  month : Nat
  day : Nat
deriving DecidableEq, Repr

/-- Days since 0000-03-01 (shifted civil calendar), defined for `year ≥ 1`.
Used to model Python's `date.weekday()` and date arithmetic. -/
def rataDie (y m d : Nat) : Nat :=
  let y' := if m ≤ 2 then y - 1 else y
  let era := y' / 400
  let yoe := y' % 400
  let mp := (m + 9) % 12
  let doy := (153 * mp + 2) / 5 + d - 1
  let doe := yoe * 365 + yoe / 4 - yoe / 100 + doy
  era * 146097 + doe

/-- Python `date.weekday()`: Monday = 0 … Sunday = 6. -/
def PyDate.weekday (d : PyDate) : Nat :=
  (rataDie d.year d.month d.day + 2) % 7

/-- `week_of_month` (registry_patient_connect.py:1628): week index anchored to
the calendar week containing the 1st:
`((d.day + first_of_month.weekday() - 1) // 7) + 1`. -/
def weekOfMonth (d : PyDate) : Nat :=
  (d.day + (PyDate.mk d.year d.month 1).weekday - 1) / 7 + 1

/-- ASCII digit character for `n % 10`. -/
def digitChar (n : Nat) : Char := Char.ofNat (48 + n % 10)

/-- Numeric value of an ASCII digit character. -/
def digitVal (c : Char) : Nat := c.toNat - 48

/-- The four zero-padded digit characters of `n` (`%04d`, for `n ≤ 9999`). -/
def pad4chars (n : Nat) : List Char :=
  [digitChar (n / 1000), digitChar (n / 100), digitChar (n / 10), digitChar n]

/-- The two zero-padded digit characters of `n` (`%02d`, for `n ≤ 99`). -/
def pad2chars (n : Nat) : List Char :=
  [digitChar (n / 10), digitChar n]

/-- Model of Python `str(date)` / `date.isoformat()`: `YYYY-MM-DD`. -/
def dateStr (d : PyDate) : String :=
  ⟨pad4chars d.year ++ '-' :: (pad2chars d.month ++ '-' :: pad2chars d.day)⟩

/-- Whether `y` is a Gregorian leap year. -/
def isLeap (y : Nat) : Bool :=
  (y % 4 == 0 && y % 100 != 0) || y % 400 == 0

/-- Number of days in month `m` of year `y`. -/
def daysInMonth (y m : Nat) : Nat :=
  if m = 2 then (if isLeap y then 29 else 28)
  else if m = 4 ∨ m = 6 ∨ m = 9 ∨ m = 11 then 30
  else 31

/-- The validity invariant every Python `datetime.date` object satisfies by
construction. -/
def PyDate.valid (d : PyDate) : Prop :=
  1 ≤ d.year ∧ d.year ≤ 9999 ∧ 1 ≤ d.month ∧ d.month ≤ 12 ∧
    1 ≤ d.day ∧ d.day ≤ daysInMonth d.year d.month

instance (d : PyDate) : Decidable d.valid := by
  unfold PyDate.valid; infer_instance

/-- Model of `datetime.fromisoformat(s).date()` on a pure date string:
parse `YYYY-MM-DD` and validate the calendar ranges. -/
def parseIsoDate? (s : String) : Option PyDate :=
  match s.data with
  | [a, b, c, d, s1, e, f, s2, g, h] =>
    if s1 = '-' ∧ s2 = '-' ∧ ([a, b, c, d, e, f, g, h].all Char.isDigit) then
      let y := ((digitVal a * 10 + digitVal b) * 10 + digitVal c) * 10 + digitVal d
      let mo := digitVal e * 10 + digitVal f
      let da := digitVal g * 10 + digitVal h
      if 1 ≤ mo ∧ mo ≤ 12 ∧ 1 ≤ da ∧ da ≤ daysInMonth y mo ∧ 1 ≤ y then
        some ⟨y, mo, da⟩
      else none
    else none
  | _ => none

/-- A Python naive `datetime.datetime`. -/
structure PyDateTime where
  date : PyDate
  hour : Nat
  minute : Nat
  second : Nat
deriving DecidableEq, Repr

/-- Seconds since the calendar epoch; differences of these model
`datetime` subtraction (`timedelta`). -/
def PyDateTime.epochSeconds (t : PyDateTime) : Nat :=
  rataDie t.date.year t.date.month t.date.day * 86400
    + t.hour * 3600 + t.minute * 60 + t.second

/-- Parse `HH:MM:SS` or `HH:MM` (the time part of `fromisoformat`). -/
def parseIsoTime? (s : String) : Option (Nat × Nat × Nat) :=
  match s.data with
  | [h1, h2, c1, m1, m2, c2, s1, s2] =>
    if c1 = ':' ∧ c2 = ':' ∧ ([h1, h2, m1, m2, s1, s2].all Char.isDigit) then
      let h := digitVal h1 * 10 + digitVal h2
      let mi := digitVal m1 * 10 + digitVal m2
      let se := digitVal s1 * 10 + digitVal s2
      if h ≤ 23 ∧ mi ≤ 59 ∧ se ≤ 59 then some (h, mi, se) else none
    else none
  | [h1, h2, c1, m1, m2] =>
    if c1 = ':' ∧ ([h1, h2, m1, m2].all Char.isDigit) then
      let h := digitVal h1 * 10 + digitVal h2
      let mi := digitVal m1 * 10 + digitVal m2
      if h ≤ 23 ∧ mi ≤ 59 then some (h, mi, 0) else none
    else none
  | _ => none

/-- `_parse_iso` (registry_patient_connect.py:1089): empty string is falsy,
`"Z"` occurrences are removed, then `datetime.fromisoformat`; a parse error is
caught and returns `None`. -/
def parseIso? (ts : String) : Option PyDateTime :=
  if ts = "" then none
  else
    let t : String := ⟨ts.data.filter (fun c => c ≠ 'Z')⟩
    match strSplitOnChar 'T' t with
    | [ds] => (parseIsoDate? ds).map (fun d => ⟨d, 0, 0, 0⟩)
    | [ds, tm] =>
      match parseIsoDate? ds, parseIsoTime? tm with
      | some d, some (h, mi, se) => some ⟨d, h, mi, se⟩
      | _, _ => none
    | _ => none

/-- `_now_iso` / `strftime("%Y-%m-%dT%H:%M:%S")`. -/
def fmtIso (t : PyDateTime) : String :=
  ⟨(dateStr t.date).data ++ 'T' :: (pad2chars t.hour ++ ':' :: (pad2chars t.minute ++ ':' :: pad2chars t.second))⟩

/-- `strftime("%H:%M")`. -/
def fmtHHMM (t : PyDateTime) : String :=
  ⟨pad2chars t.hour ++ ':' :: pad2chars t.minute⟩

/-- A Case Record: `ScheduleEntry` (registry_patient_connect.py:711) with all
the fields persisted by `to_dict`/`from_dict`. -/
structure ScheduleEntry where
  or_room : String
  date : PyDate
  time : String
  hn : String
  name : String
  age : Int
  dept : String
  doctor : String
  diags : List String
  ops : List String
  ward : String
  case_size : String
  queue : Int
  period : String
  urgency : String
  assist1 : String
  assist2 : String
  scrub : String
  circulate : String
  time_start : String
  time_end : String
  case_uid : String
  version : Int
  state : String
  returning_started_at : String
  returned_to_ward_at : String
  postop_completed : Bool
deriving DecidableEq, Repr

/-- `ScheduleEntry.uid` (registry_patient_connect.py:842):
`f"{or_room}|{hn}|{time}|{date}"`. -/
def entryUid (e : ScheduleEntry) : String :=
  e.or_room ++ "|" ++ e.hn ++ "|" ++ e.time ++ "|" ++ dateStr e.date

/-- `ScheduleEntry._gen_case_uid` (registry_patient_connect.py:771) builds a
sha1 hex digest of `f"{or_room}|{hn}|{time}|{date}"`.  The hash itself is
stdlib code outside the registry; it is modelled as an injective tagging of
the same base string (it is only reached when `from_dict` sees an empty
`case_uid`, which never happens for dicts produced by `to_dict` of a record
with a non-empty `case_uid`). -/
def genCaseUid (or_room hn time : String) (d : PyDate) : String :=
  "sha1<" ++ or_room ++ "|" ++ hn ++ "|" ++ time ++ "|" ++ dateStr d ++ ">"

/-- Model of Python `int(x) if str(x).isdigit() else 0` for an `int` input
(`age` and `queue` in `ScheduleEntry.__init__`): negative values render with
a `-` sign, which is not a digit, so they collapse to 0. -/
def intIfDigits (x : Int) : Int := if 0 ≤ x then x else 0

/-- `ScheduleEntry.__init__` (registry_patient_connect.py:712): the
normalizations the constructor applies to its arguments.  `now_date` stands
for `datetime.now().date()`, used only when `dt` is `None`. -/
def scheduleEntryMk (now_date : PyDate) (or_room : String) (dt : Option PyDate)
    (time_str hn nm : String) (age : Int) (dept doctor : String)
    (diags ops : List String) (ward case_size : String) (queue : Int)
    (period urgency assist1 assist2 scrub circulate time_start time_end : String)
    (case_uid : String) (version : Int) (state : String)
    (returning_started_at returned_to_ward_at : String)
    (postop_completed : Bool) : ScheduleEntry :=
  let or_room' := or_room
  let dt' := dt.getD now_date
  let hn' := pyTrim hn
  let time' := time_str
  { or_room := or_room'
    date := dt'
    time := time'
    hn := hn'
    name := pyTrim nm
    age := intIfDigits age
    dept := dept
    doctor := doctor
    diags := diags
    ops := ops
    ward := pyTrim ward
    case_size := pyTrim case_size
    queue := intIfDigits queue
    period := period
    urgency := if urgency = "" then "Elective" else urgency
    assist1 := assist1
    assist2 := assist2
    scrub := scrub
    circulate := circulate
    time_start := time_start
    time_end := time_end
    case_uid := if case_uid = "" then genCaseUid or_room' hn' time' dt' else case_uid
    version := if version = 0 then 1 else version
    state := if state = "" then "scheduled" else state
    returning_started_at := returning_started_at
    returned_to_ward_at := returned_to_ward_at
    postop_completed := postop_completed }

/-- The dictionary shape produced by `ScheduleEntry.to_dict`
(registry_patient_connect.py:775); `orKey` is the `"or"` key and `date`
holds the `str(self.date)` ISO string. -/
structure EntryDict where
  orKey : String
  date : String
  time : String
  hn : String
  name : String
  age : Int
  dept : String
  doctor : String
  diags : List String
  ops : List String
  ward : String
  case_size : String
  queue : Int
  period : String
  urgency : String
  assist1 : String
  assist2 : String
  scrub : String
  circulate : String
  time_start : String
  time_end : String
  case_uid : String
  version : Int
  state : String
  returning_started_at : String
  returned_to_ward_at : String
  postop_completed : Bool
deriving DecidableEq, Repr

/-- `ScheduleEntry.to_dict` (registry_patient_connect.py:775). -/
def toDict (e : ScheduleEntry) : EntryDict :=
  { orKey := e.or_room
    date := dateStr e.date
    time := e.time
    hn := e.hn
    name := e.name
    age := e.age
    dept := e.dept
    doctor := e.doctor
    diags := e.diags
    ops := e.ops
    ward := e.ward
    case_size := e.case_size
    queue := e.queue
    period := e.period
    urgency := e.urgency
    assist1 := e.assist1
    assist2 := e.assist2
    scrub := e.scrub
    circulate := e.circulate
    time_start := e.time_start
    time_end := e.time_end
    case_uid := e.case_uid
    version := e.version
    state := e.state
    returning_started_at := e.returning_started_at
    returned_to_ward_at := e.returned_to_ward_at
    postop_completed := e.postop_completed }

/-- `ScheduleEntry.from_dict` (registry_patient_connect.py:806): parse the
date (falling back to `datetime.now().date()`, the `today` argument, on
failure) and re-run the constructor; `x or default` on lists and strings is
the identity on the values `to_dict` emits except where modelled in the
constructor. -/
def fromDict (today : PyDate) (d : EntryDict) : ScheduleEntry :=
  let parsed := (parseIsoDate? d.date).getD today
  scheduleEntryMk today d.orKey (some parsed) d.time d.hn d.name d.age d.dept
    d.doctor d.diags d.ops d.ward d.case_size d.queue d.period d.urgency
    d.assist1 d.assist2 d.scrub d.circulate d.time_start d.time_end
    d.case_uid d.version d.state d.returning_started_at d.returned_to_ward_at
    d.postop_completed

/-- The invariant every constructed `ScheduleEntry` object satisfies (each
conjunct is forced by a normalization in `__init__`), plus validity of the
`date` object. -/
def entryWf (e : ScheduleEntry) : Prop :=
  pyTrim e.hn = e.hn ∧ pyTrim e.name = e.name ∧ pyTrim e.ward = e.ward ∧
  pyTrim e.case_size = e.case_size ∧ 0 ≤ e.age ∧ 0 ≤ e.queue ∧
  e.urgency ≠ "" ∧ e.case_uid ≠ "" ∧ e.version ≠ 0 ∧ e.state ≠ "" ∧
  e.date.valid

instance (e : ScheduleEntry) : Decidable (entryWf e) := by
  unfold entryWf; infer_instance

/-- The constructor's normalizations re-applied to an existing record: the
effect of `ScheduleEntry.__init__` when re-run on a record's own field
values (as `from_dict(to_dict(·))` does).  This is the identity precisely
on records satisfying `entryWf`, but not on records whose string fields
were overwritten raw by the external patch API. -/
def renormalizeEntry (e : ScheduleEntry) : ScheduleEntry :=
  { e with
    hn := pyTrim e.hn
    name := pyTrim e.name
    ward := pyTrim e.ward
    case_size := pyTrim e.case_size
    age := intIfDigits e.age
    queue := intIfDigits e.queue
    urgency := if e.urgency = "" then "Elective" else e.urgency
    case_uid := if e.case_uid = "" then genCaseUid e.or_room (pyTrim e.hn) e.time e.date
                else e.case_uid
    version := if e.version = 0 then 1 else e.version
    state := if e.state = "" then "scheduled" else e.state }

/-- Parse one `"HH:MM"` field the way `_is_postop_complete_entry` does:
`hh, mm = s.split(":")` (exactly two pieces, else `ValueError`), `int` each,
total minutes.  Exceptions are modelled as `none`. -/
def hhmmToMinutes? (s : String) : Option Int :=
  match strSplitOnChar ':' s with
  | [hh, mm] =>
    match pyInt? hh, pyInt? mm with
    | some h, some m => some (h * 60 + m)
    | _, _ => none
  | _ => none

/-- `_is_postop_complete_entry` (registry_patient_connect.py:1101): the
completeness predicate gating the returning→returned/pending fork and the
dispatch auto-finish. -/
def isPostopCompleteEntry (e : ScheduleEntry) : Bool :=
  if e.time_start = "" ∨ e.time_end = "" then false
  else
    match hhmmToMinutes? e.time_start, hhmmToMinutes? e.time_end with
    | some t1, some t2 =>
      if t2 < t1 then false
      else if e.scrub = "" ∧ e.circulate = "" ∧ e.assist1 = "" ∧ e.assist2 = "" then false
      else if e.ops = [] ∧ e.diags = [] then false
      else true
    | _, _ => false

/-- A well-formed `HH:MM` wall-clock time as the spec words it: two-digit
hour 00–23, two-digit minute 00–59 (spec-side definition, for comparison
with the code's predicate). -/
def wellFormedHHMM (s : String) : Bool :=
  match s.data with
  | [h1, h2, c, m1, m2] =>
    c = ':' && ([h1, h2, m1, m2].all Char.isDigit) &&
      (digitVal h1 * 10 + digitVal h2 < 24) && (digitVal m1 * 10 + digitVal m2 < 60)
  | _ => false

/-- Minutes-of-day of a well-formed `HH:MM` string (spec-side). -/
def hhmmMinutes (s : String) : Nat :=
  match s.data with
  | [h1, h2, _, m1, m2] => (digitVal h1 * 10 + digitVal h2) * 60 + (digitVal m1 * 10 + digitVal m2)
  | _ => 0

/-- The completeness predicate exactly as the claim words it (spec-side
definition for the refinement comparison): both times non-empty well-formed
`HH:MM`, end ≥ start, at least one team member, at least one of
operations/diagnoses. -/
def specPostopComplete (e : ScheduleEntry) : Bool :=
  e.time_start ≠ "" && e.time_end ≠ "" &&
  wellFormedHHMM e.time_start && wellFormedHHMM e.time_end &&
  hhmmMinutes e.time_start ≤ hhmmMinutes e.time_end &&
  (e.scrub ≠ "" || e.circulate ≠ "" || e.assist1 ≠ "" || e.assist2 ≠ "") &&
  (!e.ops.isEmpty || !e.diags.isEmpty)

/-- Monitor status text meaning "operation in progress"
(registry_patient_connect.py:437). -/
def STATUS_OP_START : String := "กำลังผ่าตัด"

/-- Monitor status text meaning "operation ended / recovering"
(registry_patient_connect.py:438). -/
def STATUS_OP_END : String := "กำลังพักฟื้น"

/-- Monitor status text meaning "returning to ward"
(registry_patient_connect.py:439). -/
def STATUS_RETURNING : String := "กำลังส่งกลับตึก"

/-- `int(entry.version or 1) + 1`: the version bump applied on every
mutation path that does bump. -/
def bumpVersion (v : Int) : Int := (if v = 0 then 1 else v) + 1

/-- `Main._set_time_start_if_empty` (registry_patient_connect.py:3632). -/
def setTimeStartIfEmpty (now : PyDateTime) (e : ScheduleEntry) : ScheduleEntry :=
  if e.time_start = "" then
    { e with time_start := fmtHHMM now, version := bumpVersion e.version }
  else e

/-- `Main._set_time_end_if_empty` (registry_patient_connect.py:3637). -/
def setTimeEndIfEmpty (now : PyDateTime) (e : ScheduleEntry) : ScheduleEntry :=
  if e.time_end = "" then
    { e with time_end := fmtHHMM now, version := bumpVersion e.version }
  else e

/-- The per-row core of `Main._scan_monitor_status_transitions`
(registry_patient_connect.py:3660–3678): how one fresh monitor status string
is applied to the matched entry.  Note: the op-start / op-end state advance
does not touch `version` in the source (only the timestamp helpers and the
returning branch bump it). -/
def scanApplyStatus (now : PyDateTime) (status : String) (e : ScheduleEntry) : ScheduleEntry :=
  if status = STATUS_OP_START then
    let e1 := setTimeStartIfEmpty now e
    if e1.state = "scheduled" ∨ e1.state = "in_or" ∨ e1.state = "operation_ended" ∨
        e1.state = "postop_pending" ∨ e1.state = "" then
      { e1 with state := "operation_started" }
    else e1
  else if status = STATUS_OP_END then
    let e1 := setTimeEndIfEmpty now e
    if e1.state = "operation_started" ∨ e1.state = "in_or" ∨ e1.state = "scheduled" ∨
        e1.state = "" then
      { e1 with state := "operation_ended" }
    else e1
  else if status = STATUS_RETURNING then
    if e.time_end = "" then e
    else if e.state ≠ "returning_to_ward" then
      { e with state := "returning_to_ward", returning_started_at := fmtIso now,
               version := bumpVersion e.version }
    else e
  else e

/-- The per-entry body of `Main._tick_returning_cron`
(registry_patient_connect.py:2341–2364): the 30-second sweep over entries in
`returning_to_ward`.  `_is_entry_completed` just forwards to
`_is_postop_complete_entry`. -/
def tickReturningEntry (now : PyDateTime) (e : ScheduleEntry) : ScheduleEntry :=
  if e.state = "returning_to_ward" ∧ e.returning_started_at ≠ "" then
    match parseIso? e.returning_started_at with
    | none => e
    | some t0 =>
      if e.time_end = "" then e
      else if (180 : Int) ≤ (now.epochSeconds : Int) - (t0.epochSeconds : Int) then
        if isPostopCompleteEntry e then
          { e with postop_completed := true, state := "returned_to_ward",
                   returned_to_ward_at := fmtIso now, version := bumpVersion e.version }
        else
          { e with postop_completed := false, state := "postop_pending",
                   returned_to_ward_at := fmtIso now, version := bumpVersion e.version }
      else e
  else e

/-- `Main._tick_returning_cron` over the whole entry list. -/
def tickReturningCron (now : PyDateTime) (entries : List ScheduleEntry) : List ScheduleEntry :=
  entries.map (tickReturningEntry now)

/-- A patch dict for `Main.apply_external_update`
(registry_patient_connect.py:4130): the allow-listed keys plus the
`"_intent"` marker; `none` = key absent.  String values are stored through
`str(value or "")` in the source, which is the identity on the strings
modelled here; `version` in the patch is ignored by the source. -/
structure Patch where
  intent : Option String
  assist1 : Option String
  assist2 : Option String
  scrub : Option String
  circulate : Option String
  time_start : Option String
  time_end : Option String
  ward : Option String
  doctor : Option String
  state : Option String
  returning_started_at : Option String
  returned_to_ward_at : Option String
  postop_completed : Option Bool
  version : Option Int
deriving Repr

/-- The empty patch (all keys absent). -/
def Patch.empty : Patch :=
  ⟨none, none, none, none, none, none, none, none, none, none, none, none, none, none⟩

/-- `str(patch.get("_intent") or "").strip().lower()`. -/
def patchIntent (p : Patch) : String := toLowerStr (pyTrim (p.intent.getD ""))

/-- The field assignments of the generic branch of `apply_external_update`
(registry_patient_connect.py:4183–4196): each allow-listed key present in the
patch overwrites the corresponding attribute (`version` is skipped there and
bumped afterwards). -/
def patchFields (e : ScheduleEntry) (p : Patch) : ScheduleEntry :=
  { e with
    assist1 := p.assist1.getD e.assist1
    assist2 := p.assist2.getD e.assist2
    scrub := p.scrub.getD e.scrub
    circulate := p.circulate.getD e.circulate
    time_start := p.time_start.getD e.time_start
    time_end := p.time_end.getD e.time_end
    ward := p.ward.getD e.ward
    doctor := p.doctor.getD e.doctor
    state := p.state.getD e.state
    returning_started_at := p.returning_started_at.getD e.returning_started_at
    returned_to_ward_at := p.returned_to_ward_at.getD e.returned_to_ward_at
    postop_completed := p.postop_completed.getD e.postop_completed }

/-- Toast message of the rejected mark-returning request
(registry_patient_connect.py:4156). -/
def msgCannotReturn : String := "ยังไม่มีเวลา 'จบผ่าตัด' — ตั้งสถานะกำลังส่งกลับตึกไม่ได้"

/-- Toast message of the accepted mark-returning request
(registry_patient_connect.py:4166). -/
def msgMarkedReturning : String := "ตั้งสถานะ 'กำลังส่งกลับตึก' แล้ว (เริ่มนับ 3 นาที)"

/-- Toast message of the accepted generic patch
(registry_patient_connect.py:4204). -/
def msgPatched : String := "อัปเดตข้อมูลจาก Client สำเร็จ"

/-- Result of `apply_external_update`: the returned boolean, the toast text
surfaced to the user (`""` when none was shown), and the entry list after
the call. -/
structure UpdateResult where
  ok : Bool
  toast : String
  entries : List ScheduleEntry
deriving Repr

/-- The generic branch of `apply_external_update`
(registry_patient_connect.py:4183–4200): apply the allow-listed patch
fields, bump `version`, then auto-set `returning_started_at` when the
patched record is in `returning_to_ward` without one. -/
def applyGenericPatch (now : PyDateTime) (e : ScheduleEntry) (p : Patch) : ScheduleEntry :=
  let e1 := patchFields e p
  let e2 := { e1 with version := bumpVersion e1.version }
  if e2.state = "returning_to_ward" ∧ e2.returning_started_at = "" then
    { e2 with returning_started_at := fmtIso now }
  else e2

/-- The body of `apply_external_update` for the matched entry
(registry_patient_connect.py:4154–4205): either the `mark_returning` intent
branch or the generic allow-listed patch branch. -/
def applyToEntry (now : PyDateTime) (e : ScheduleEntry) (p : Patch) : Bool × String × ScheduleEntry :=
  if patchIntent p = "mark_returning" then
    if e.time_end = "" then (false, msgCannotReturn, e)
    else
      (true, msgMarkedReturning,
        { e with state := "returning_to_ward", returning_started_at := fmtIso now,
                 postop_completed := false, returned_to_ward_at := "",
                 version := bumpVersion e.version })
  else
    (true, msgPatched, applyGenericPatch now e p)

/-- `Main.apply_external_update` (registry_patient_connect.py:4130): scan the
entry list for the first record whose volatile uid matches, apply the patch
to it, and return `False` (no toast) when nothing matches. -/
def applyExternalUpdate (now : PyDateTime) (entries : List ScheduleEntry)
    (uid : String) (p : Patch) : UpdateResult :=
  match entries with
  | [] => ⟨false, "", []⟩
  | e :: rest =>
    if entryUid e = uid then
      let r := applyToEntry now e p
      ⟨r.1, r.2.1, r.2.2 :: rest⟩
    else
      let r := applyExternalUpdate now rest uid p
      ⟨r.ok, r.toast, e :: r.entries⟩

/-- `DOCTOR_ALIASES` (registry_patient_connect.py:1567, including the
`.update` at line 1590): abbreviated/misspelled doctor names mapped to the
canonical full name. -/
def DOCTOR_ALIASES : List (String × String) := [
  ("นพ.สุริยะ คุณาชน", "นพ.สุริยา คุณาชน"),
  ("นพ.สุริยา", "นพ.สุริยา คุณาชน"),
  ("นพ.ธนวัฒน์", "นพ.ธนวัฒน์ พันธุ์พรหม"),
  ("พญ.รัฐพร", "พญ.รัฐพร ตั้งเพียร"),
  ("พญ.พิชัย", "พญ.พิชัย สุวัฒนพูนลาภ"),
  ("พญ.พิริยา", "พญ.พิรุณยา แสนวันดี"),
  ("พญ.พิรุณยา", "พญ.พิรุณยา แสนวันดี"),
  ("พญ.สายฝน", "พญ.สายฝน บรรณจิตร์"),
  ("นพ.ชัชพล", "นพ.ชัชพล องค์โฆษิต"),
  ("นพ.ณัฐพงศ์", "นพ.ณัฐพงศ์ ศรีโพนทอง"),
  ("นพ.วิษณุ", "นพ.วิษณุ ผูกพันธ์"),
  ("นพ.กฤษฎา", "นพ.กฤษฎา อิ้งอำพร"),
  ("พญ.สุภาภรณ์", "พญ.สุภาภรณ์ พิณพาทย์"),
  ("พญ.สุทธิพร", "พญ.สุทธิพร หมวดไธสง"),
  ("พญ.สุภาภรณ์ พิณพาท", "พญ.สุภาภรณ์ พิณพาทย์"),
  ("พญ.พิชัย สุวัฒนพูนลาภ", "พญ.พิชัย สุวัฒนพูนลาภ"),
  ("นพ.วิษณุ ผูกพัน", "นพ.วิษณุ ผูกพันธ์"),
  ("ทพญ.อรุณนภา คิสาลัง", "ทพญ.อรุณนภา คิสารัง"),
  ("พญ.สีกชมพู ตั้งสัตยาธ", "พญ.สีกชมพู ตั้งสัตยาธิษฐาน"),
  ("ทพญ.อรุณนภา", "ทพญ.อรุณนภา คิสารัง"),
  ("ทพ.ฉลองรัฐ", "ทพ.ฉลองรัฐ เดชา"),
  ("นพ.วรวิช", "นพ.วรวิช พลเวียงธรรม")
]

/-- `GROUPS` (registry_patient_connect.py:1510): service token → member
doctors, in source insertion order. -/
def GROUPS : List (String × List String) := [
  ("SUR_ANY", ["นพ.สุริยา คุณาชน", "นพ.ธนวัฒน์ พันธุ์พรหม", "พญ.สุภาภรณ์ พิณพาทย์", "พญ.รัฐพร ตั้งเพียร", "พญ.พิชัย สุวัฒนพูนลาภ"]),
  ("ORTHO_ANY", ["นพ.ชัชพล องค์โฆษิต", "นพ.ณัฐพงศ์ ศรีโพนทอง", "นพ.อำนาจ อนันต์วัฒนกุล", "นพ.อภิชาติ ลักษณะ", "นพ.กฤษฎา อิ้งอำพร", "นพ.วิษณุ ผูกพันธ์"]),
  ("URO_ANY", ["พญ.สายฝน บรรณจิตร์"]),
  ("ENT_ANY", ["พญ.พิรุณยา แสนวันดี", "พญ.สุทธิพร หมวดไธสง", "นพ.วรวิช พลเวียงธรรม"]),
  ("OBGYN_ANY", ["นพ.สุรจิตต์ นิมิตรวงษ์สกุล", "พญ.ขวัญตา ทุนประเทือง", "พญ.วัชราภรณ์ อนวัชชกุล", "พญ.รุ่งฤดี โขมพัตร", "พญ.ฐิติมน ชัยชนะทรัพย์"]),
  ("EYE_ANY", ["นพ.สราวุธ สารีย์", "พญ.ดวิษา อังศรีประเสริฐ", "พญ.สาวิตรี ถนอมวงศ์ไทย", "พญ.สีกชมพู ตั้งสัตยาธิษฐาน", "พญ.นันท์นภัส ชีวะเกรียงไกร"]),
  ("MAXILO_ANY", ["ทพ.ฉลองรัฐ เดชา", "ทพญ.อรุณนภา คิสารัง"])
]

/-- A rule of the weekly plan: `{"doctor": name|[names], "when": ..., "weeks": ...}`. -/
inductive DoctorTok where
  | one : String → DoctorTok
  | many : List String → DoctorTok
deriving DecidableEq, Repr

structure Rule where
  doctor : DoctorTok
  whenTok : String
  weeks : List Nat
deriving DecidableEq, Repr

/-- `WEEKLY_DOCTOR_OR_PLAN` (registry_patient_connect.py:1467): weekday
(Mon=0) → ordered room/rule table.  Weekdays 5–6 are absent (`{}`). -/
def weeklyPlan : Nat → List (String × List Rule)
  | 0 => [
    ("OR1", [⟨.one "นพ.สุริยา คุณาชน", "ALLDAY", [1]⟩,
      ⟨.one "พญ.รัฐพร ตั้งเพียร", "ALLDAY", [2]⟩,
      ⟨.one "พญ.พิชัย สุวัฒนพูนลาภ", "ALLDAY", [3]⟩,
      ⟨.one "นพ.ธนวัฒน์ พันธุ์พรหม", "ALLDAY", [4]⟩]),
    ("OR2", [⟨.one "นพ.ณัฐพงศ์ ศรีโพนทอง", "ALLDAY", [1, 2, 3, 4]⟩]),
    ("OR3", [⟨.one "พญ.พิรุณยา แสนวันดี", "ALLDAY", [1, 2, 3, 4]⟩]),
    ("OR5", [⟨.one "OBGYN_ANY", "ALLDAY", [1, 2, 3, 4]⟩]),
    ("OR6", [⟨.one "OBGYN_ANY", "ALLDAY", [1, 2, 3, 4]⟩]),
    ("OR8", [⟨.one "พญ.สีชมพู ตั้งสัตยาธิษฐาน", "ALLDAY", [1, 2, 3, 4]⟩])
  ]
  | 1 => [
    ("OR1", [⟨.one "พญ.สายฝน บรรณจิตร์", "ALLDAY", [1, 2, 3, 4]⟩]),
    ("OR2", [⟨.one "นพ.ชัชพล องค์โฆษิต", "ALLDAY", [1, 2, 3, 4]⟩]),
    ("OR3", [⟨.one "พญ.สุภาภรณ์ พิณพาทย์", "AM", [1, 2, 3, 4]⟩,
      ⟨.one "ทพญ.อรุณนภา คิสารัง", "PM", [1, 2, 3, 4]⟩]),
    ("OR5", [⟨.one "OBGYN_ANY", "ALLDAY", [1, 2, 3, 4]⟩]),
    ("OR6", [⟨.one "นพ.พิชัย สุวัฒนพูนลาภ", "ALLDAY", [1, 2, 3, 4]⟩]),
    ("OR8", [⟨.one "พญ.สาวิตรี ถนอมวงศ์ไทย", "ALLDAY", [1, 2, 3, 4]⟩])
  ]
  | 2 => [
    ("OR1", [⟨.one "นพ.สุริยา คุณาชน", "ALLDAY", [1, 2, 3, 4]⟩]),
    ("OR2", [⟨.one "นพ.วิษณุ ผูกพันธ์", "ALLDAY", [1, 2, 3, 4]⟩]),
    ("OR3", [⟨.one "CLOSED", "ALLDAY", [1, 2, 3, 4]⟩]),
    ("OR5", [⟨.one "OBGYN_ANY", "ALLDAY", [1, 2, 3, 4]⟩]),
    ("OR6", [⟨.one "พญ.รัฐพร ตั้งเพียร", "ALLDAY", [1, 2, 3, 4]⟩]),
    ("OR8", [⟨.one "พญ.นันท์นภัส ชีวะเกรียงไกร", "ALLDAY", [1, 2, 3, 4]⟩])
  ]
  | 3 => [
    ("OR1", [⟨.one "พญ.สายฝน บรรณจิตร์", "AM", [1, 2, 3, 4]⟩,
      ⟨.one "นพ.ชัชพล องค์โฆษิต", "PM", [1, 3]⟩,
      ⟨.many ["นพ.ณัฐพงศ์ ศรีโพนทอง", "นพ.วิษณุ ผูกพันธ์"], "PM", [2, 4]⟩]),
    ("OR2", [⟨.one "นพ.อำนาจ อนันต์วัฒนกุล", "ALLDAY", [1, 2, 3, 4]⟩]),
    ("OR3", [⟨.one "นพ.วรวิช พลเวียงธรรม", "AM", [1, 2, 3, 4]⟩,
      ⟨.one "ทพ.ฉลองรัฐ เดชา", "PM", [1, 2, 3, 4]⟩]),
    ("OR5", [⟨.one "OBGYN_ANY", "ALLDAY", [1, 2, 3, 4]⟩]),
    ("OR6", [⟨.one "นพ.ธนวัฒน์ พันธุ์พรหม", "ALLDAY", [1, 2, 3, 4]⟩]),
    ("OR8", [⟨.one "พญ.ดวิษา อังศรีประเสริฐ", "ALLDAY", [1, 2, 3, 4]⟩])
  ]
  | 4 => [
    ("OR1", [⟨.one "พญ.สุภาภรณ์ พิณพาทย์", "ALLDAY", [1, 2, 3, 4]⟩]),
    ("OR2", [⟨.one "นพ.กฤษฎา อิ้งอำพร", "ALLDAY", [1, 2, 3, 4]⟩]),
    ("OR3", [⟨.one "พญ.สุทธิพร หมวดไธสง", "ALLDAY", [1, 2, 3, 4]⟩]),
    ("OR5", [⟨.one "OBGYN_ANY", "ALLDAY", [1, 2, 3, 4]⟩]),
    ("OR6", [⟨.one "CLOSED", "ALLDAY", [1, 2, 3, 4]⟩]),
    ("OR8", [⟨.one "นพ.สราวุธ สารีย์", "ALLDAY", [1, 2, 3, 4]⟩])
  ]
  | _ => []

/-- `CLOSED_TOKENS` (registry_patient_connect.py:1611). -/
def CLOSED_TOKENS : List String := ["CLOSE", "CLOSED"]

/-- `normalize_doctor_name` (registry_patient_connect.py:1617): collapse
whitespace and apply the alias table. -/
def normalizeDoctorName (nm : String) : String :=
  let s := collapseWs nm
  ((DOCTOR_ALIASES.lookup s).getD s)

/-- `GROUP_MEMBER_LOOKUP` (registry_patient_connect.py:1622): the normalized
member set of a service token (empty for unknown tokens). -/
def memberLookup (token : String) : List String :=
  ((GROUPS.lookup token).getD []).map normalizeDoctorName

/-- Whether a token is a key of `GROUPS`. -/
def isGroupTok (t : String) : Bool := (GROUPS.lookup t).isSome

/-- The literal token set on line 1654 of the source (a subset of the
`GROUPS` keys, making that disjunct redundant). -/
def GROUP_EXTRA : List String :=
  ["SUR_ANY", "ORTHO_ANY", "ENT_ANY", "EYE_ANY", "MAXILO_ANY", "OBGYN_ANY"]

/-- `doctor_in_group` (registry_patient_connect.py:1643). -/
def doctorInGroup (doc token : String) : Bool :=
  (memberLookup token).contains (normalizeDoctorName doc)

/-- `match_doctor` (registry_patient_connect.py:1648): `CLOSED`/`CLOSE`
tokens never match; group tokens match by membership; otherwise normalized
name equality. -/
def matchDoctor (token nm : String) : Bool :=
  if token = "" then false
  else if CLOSED_TOKENS.contains token then false
  else if isGroupTok token || GROUP_EXTRA.contains token then doctorInGroup nm token
  else normalizeDoctorName token == normalizeDoctorName nm

/-- `doctor_service_token` (registry_patient_connect.py:1659): the first
group (in insertion order) whose member set contains the normalized name. -/
def doctorServiceToken (nm : String) : String :=
  match GROUPS.find? (fun g => (g.2.map normalizeDoctorName).contains (normalizeDoctorName nm)) with
  | some g => g.1
  | none => ""

/-- `_rule_tokens` (registry_patient_connect.py:1667). -/
def ruleTokens (r : Rule) : List String :=
  match r.doctor with
  | .one s => [s]
  | .many l => l

/-- Python `if not doctor_token: continue` on the rule's `"doctor"` value. -/
def tokFalsy : DoctorTok → Bool
  | .one s => s = ""
  | .many l => l.isEmpty

/-- `(rule.get("when") or "ALLDAY").upper()`. -/
def ruleWhen (r : Rule) : String :=
  toUpperStr (if r.whenTok = "" then "ALLDAY" else r.whenTok)

/-- `_rule_matches_service` (registry_patient_connect.py:1674): some rule
token is non-empty, non-CLOSED, and either equals the service token or
normalizes into its member set.  (The source's fallback recomputation of
`members` when the lookup is empty rebuilds the identical set and is elided;
the redundant `token in GROUP_MEMBER_LOOKUP and token == service_token`
disjunct is kept.) -/
def ruleMatchesService (r : Rule) (serviceTok : String) : Bool :=
  if serviceTok = "" then false
  else
    let members := memberLookup serviceTok
    (ruleTokens r).any fun tok =>
      tok ≠ "" && !(CLOSED_TOKENS.contains tok) &&
        (tok == serviceTok || (isGroupTok tok && tok == serviceTok) ||
          members.contains (normalizeDoctorName tok))

/-- `time_to_period` (registry_patient_connect.py:1633): `TF` → `ANY`,
unparseable hour → `ANY`, else `AM`/`PM` by hour < 12. -/
def timeToPeriod (s : String) : String :=
  if s = "TF" then "ANY"
  else
    match pyInt? ((strSplitOnChar ':' s).headD s) with
    | none => "ANY"
    | some h => if h < 12 then "AM" else "PM"

/-- The flattened `iter_rules()` of `pick_or_by_doctor`: rooms in table
order, each room's rules in order. -/
def planFlat : List (String × List Rule) → List (String × Rule)
  | [] => []
  | (room, rules) :: rest => rules.map (fun r => (room, r)) ++ planFlat rest

/-- First loop of `pick_or_by_doctor` (registry_patient_connect.py:1782):
week matches, period matches (or rule is ALLDAY or period is ANY), and some
doctor token matches. -/
def phaseA (wk : Nat) (period nm : String) (pr : String × Rule) : Bool :=
  !tokFalsy pr.2.doctor && pr.2.weeks.contains wk &&
    (ruleWhen pr.2 == "ALLDAY" || period == "ANY" || period == ruleWhen pr.2) &&
    (ruleTokens pr.2).any (fun doc => matchDoctor doc nm)

/-- Second loop (registry_patient_connect.py:1794), reached only when the
period is `ANY`: week matches, rule not CLOSED, some doctor token matches. -/
def phaseB (wk : Nat) (nm : String) (pr : String × Rule) : Bool :=
  !tokFalsy pr.2.doctor && pr.2.weeks.contains wk &&
    !((ruleTokens pr.2).any (fun tok => CLOSED_TOKENS.contains tok)) &&
    (ruleTokens pr.2).any (fun doc => matchDoctor doc nm)

/-- Third loop (registry_patient_connect.py:1807): ignore week/period, rule
not CLOSED, and an explicit (non-group) token matches. -/
def phaseC (nm : String) (pr : String × Rule) : Bool :=
  !tokFalsy pr.2.doctor &&
    !((ruleTokens pr.2).any (fun tok => CLOSED_TOKENS.contains tok)) &&
    (let expl := (ruleTokens pr.2).filter (fun tok => !isGroupTok tok)
     !expl.isEmpty && expl.any (fun doc => matchDoctor doc nm))

/-- Fourth loop (registry_patient_connect.py:1823): service-level match
respecting week/period. -/
def phaseD (wk : Nat) (period serviceTok : String) (pr : String × Rule) : Bool :=
  pr.2.weeks.contains wk &&
    (ruleWhen pr.2 == "ALLDAY" || period == "ANY" || period == ruleWhen pr.2) &&
    ruleMatchesService pr.2 serviceTok

/-- Fifth loop (registry_patient_connect.py:1830): service-level match
ignoring week/period. -/
def phaseE (serviceTok : String) (pr : String × Rule) : Bool :=
  ruleMatchesService pr.2 serviceTok

/-- `pick_or_by_doctor` (registry_patient_connect.py:1765): the OR-assignment
resolver, returning `""` ("unassigned") when nothing matches.  The Python
locals `plan`, `current_week`, `period`, `service_token` and the generator
`iter_rules()` are inlined as `weeklyPlan caseDate.weekday`,
`weekOfMonth caseDate`, `timeToPeriod timeStr`, `doctorServiceToken nm`
and `planFlat …`; the five sequential `for` loops with early `return`
become the five `find?` phases. -/
def pickOrByDoctor (caseDate : PyDate) (timeStr nm : String) : String :=
  if nm = "" then ""
  else if weeklyPlan caseDate.weekday = [] then ""
  else
    match (planFlat (weeklyPlan caseDate.weekday)).find?
        (phaseA (weekOfMonth caseDate) (timeToPeriod timeStr) nm) with
    | some pr => pr.1
    | none =>
      match (if timeToPeriod timeStr = "ANY" then
          (planFlat (weeklyPlan caseDate.weekday)).find? (phaseB (weekOfMonth caseDate) nm)
        else none) with
      | some pr => pr.1
      | none =>
        match (planFlat (weeklyPlan caseDate.weekday)).find? (phaseC nm) with
        | some pr => pr.1
        | none =>
          if doctorServiceToken nm = "" then ""
          else
            match (planFlat (weeklyPlan caseDate.weekday)).find?
                (phaseD (weekOfMonth caseDate) (timeToPeriod timeStr) (doctorServiceToken nm)) with
            | some pr => pr.1
            | none =>
              match (planFlat (weeklyPlan caseDate.weekday)).find?
                  (phaseE (doctorServiceToken nm)) with
              | some pr => pr.1
              | none => ""

/-- `OWNER_WED_DOCTOR2OR` (registry_patient_connect.py:1163): Wednesday room
owners, in insertion order. -/
def OWNER_WED_DOCTOR2OR : List (String × String) :=
  [("นพ.สุริยา คุณาชน", "OR1"), ("พญ.รัฐพร ตั้งเพียร", "OR6")]

/-- `_owner_variants` (registry_patient_connect.py:1169): the canonical name
plus every alias whose canonical form collapses to it (a Python set; order
is irrelevant to the `any` it feeds). -/
def ownerVariants (nm : String) : List String :=
  nm :: (DOCTOR_ALIASES.filter (fun a => collapseWs a.2 = collapseWs nm)).map (fun a => a.1)

/-- Python `needle in hay` on strings: substring containment. -/
def strIn (needle hay : String) : Bool :=
  hay.data.tails.any (fun t => needle.data.isPrefixOf t)

/-- `_infer_doctor_from_entry` (registry_patient_connect.py:1181): the
normalized `doctor` field when non-empty, else a scan of the ops/diags text
for any variant of a Wednesday owner. -/
def inferDoctorFromEntry (e : ScheduleEntry) : String :=
  let who := normalizeDoctorName e.doctor
  if who ≠ "" then who
  else
    let text := joinSep " " [joinSep " " e.ops, joinSep " " e.diags]
    match OWNER_WED_DOCTOR2OR.find?
        (fun ow => (ownerVariants ow.1).any (fun v => v ≠ "" && strIn v text)) with
    | some ow => normalizeDoctorName ow.1
    | none => ""

/-- The per-entry fix applied by `normalize_owner_for_wednesday` on a
Wednesday: first matching owner (insertion order) forces that owner's room;
no `version` bump occurs in the source. -/
def wednesdayFix (e : ScheduleEntry) : ScheduleEntry :=
  let who := inferDoctorFromEntry e
  match OWNER_WED_DOCTOR2OR.find?
      (fun ow => normalizeDoctorName ow.1 == normalizeDoctorName who) with
  | some ow => if e.or_room ≠ ow.2 then { e with or_room := ow.2 } else e
  | none => e

/-- `normalize_owner_for_wednesday` (registry_patient_connect.py:1208): on a
non-Wednesday the list is returned unchanged; on a Wednesday every entry is
fixed up in place. -/
def normalizeOwnerForWednesday (entries : List ScheduleEntry) (dt : PyDate) : List ScheduleEntry :=
  if dt.weekday ≠ 2 then entries
  else entries.map wednesdayFix

/-- `_pickup_id_for_row` ∘ `Main._pickup_id_for_entry`
(registry_patient_connect.py:368, 2594): `f"{date}:{hn}:{or_room}"` with each
component stripped. -/
def pickupIdForEntry (e : ScheduleEntry) : String :=
  pyTrim (dateStr e.date) ++ ":" ++ pyTrim e.hn ++ ":" ++ pyTrim e.or_room

/-- `str(row.get("status") or "").strip()` against the runner status map
(an association list keyed by pickup id). -/
def statusOf (m : List (String × String)) (pid : String) : String :=
  pyTrim ((m.lookup pid).getD "")

/-- Python set insert. -/
def setInsert (s : List String) (x : String) : List String :=
  if s.contains x then s else x :: s

/-- Python `set.discard`. -/
def setDiscard (s : List String) (x : String) : List String :=
  s.filter (fun y => y ≠ x)

/-- The entry loop of `Main._auto_finish_runner_cases`
(registry_patient_connect.py:2758–2771).  `finishOk pid` models the outcome
of the external `_runner_finish` POST; the second component collects every
pickup id for which a finish call was issued. -/
def autoFinishGo (finishOk : String → Bool) (m : List (String × String)) :
    List ScheduleEntry → List String → List String × List String
  | [], sent => (sent, [])
  | e :: rest, sent =>
    if !isPostopCompleteEntry e then autoFinishGo finishOk m rest sent
    else
      let pid := pickupIdForEntry e
      if pid = "" then autoFinishGo finishOk m rest sent
      else if statusOf m pid = "finished" then
        autoFinishGo finishOk m rest (setDiscard sent pid)
      else if sent.contains pid then autoFinishGo finishOk m rest sent
      else
        let sent' := if finishOk pid then setInsert sent pid else sent
        let r := autoFinishGo finishOk m rest sent'
        (r.1, pid :: r.2)

/-- `Main._auto_finish_runner_cases` (registry_patient_connect.py:2755):
returns the updated `_runner_finished_sent` set and the list of pickup ids
for which a finish call was issued this pass. -/
def autoFinishRunnerCases (finishOk : String → Bool) (entries : List ScheduleEntry)
    (m : List (String × String)) (sent : List String) : List String × List String :=
  if entries.isEmpty || m.isEmpty then (sent, [])
  else autoFinishGo finishOk m entries sent

/-- The record-level invariant of §3 of the spec: `state == returning_to_ward`
implies a non-empty `time_end`. -/
def entryInv (e : ScheduleEntry) : Prop :=
  e.state = "returning_to_ward" → e.time_end ≠ ""

instance (e : ScheduleEntry) : Decidable (entryInv e) := by
  unfold entryInv; infer_instance

/-- A fixed `datetime.now()` used for concrete evaluations. -/
def sampleNow : PyDateTime := ⟨⟨2026, 6, 3⟩, 10, 0, 0⟩

/-- A baseline concrete case record used for concrete evaluations
(2026-06-03 is a Wednesday). -/
def sampleEntry : ScheduleEntry :=
  { or_room := "OR3", date := ⟨2026, 6, 3⟩, time := "09:00", hn := "123456"
    name := "ผู้ป่วย ทดสอบ", age := 30, dept := "ศัลยกรรม", doctor := ""
    diags := [], ops := [], ward := "W1", case_size := "Major", queue := 0
    period := "in", urgency := "Elective", assist1 := "", assist2 := ""
    scrub := "", circulate := "", time_start := "", time_end := ""
    case_uid := "uid-1", version := 5, state := "scheduled"
    returning_started_at := "", returned_to_ward_at := ""
    postop_completed := false }

/-- A concrete record sitting in `returning_to_ward` since 09:50 with
complete postoperative data. -/
def sampleReturning : ScheduleEntry :=
  { sampleEntry with
    state := "returning_to_ward"
    returning_started_at := "2026-06-03T09:50:00"
    time_start := "08:00"
    time_end := "09:30"
    scrub := "x"
    ops := ["op"] }

/-- `datetime(2026, 6, 3, 9, 50, 0)`: the parse of
`sampleReturning.returning_started_at`. -/
def sampleT0 : PyDateTime := ⟨⟨2026, 6, 3⟩, 9, 50, 0⟩

/-! ### Helper lemmas -/

theorem bumpVersion_gt (v : Int) : v < bumpVersion v := by
  unfold bumpVersion; split <;> omega

theorem mk_string_ne_empty (c : Char) (l : List Char) : (⟨c :: l⟩ : String) ≠ "" := by
  intro h
  have hd : (⟨c :: l⟩ : String).data = ("" : String).data := by rw [h]
  simp [String.data] at hd

theorem fmtIso_ne_empty (t : PyDateTime) : fmtIso t ≠ "" := by
  unfold fmtIso dateStr pad4chars
  exact mk_string_ne_empty _ _

theorem fmtHHMM_ne_empty (t : PyDateTime) : fmtHHMM t ≠ "" := by
  unfold fmtHHMM pad2chars
  exact mk_string_ne_empty _ _

theorem parseIso_empty : parseIso? "" = none := by
  simp [parseIso?]

/-! ### C2 â the 3-minute returning sweep -/

theorem tickReturningEntry_ready (now : PyDateTime) (e : ScheduleEntry) (t0 : PyDateTime)
    (hst : e.state = "returning_to_ward")
    (hp : parseIso? e.returning_started_at = some t0)
    (hte : e.time_end ≠ "") :
    tickReturningEntry now e =
      if (180 : Int) ≤ (now.epochSeconds : Int) - (t0.epochSeconds : Int) then
        (if isPostopCompleteEntry e then
          { e with postop_completed := true, state := "returned_to_ward",
                   returned_to_ward_at := fmtIso now, version := bumpVersion e.version }
        else
          { e with postop_completed := false, state := "postop_pending",
                   returned_to_ward_at := fmtIso now, version := bumpVersion e.version })
      else e := by
  have hne : e.returning_started_at ≠ "" := by
    intro h; rw [h, parseIso_empty] at hp; exact Option.noConfusion hp
  unfold tickReturningEntry
  rw [if_pos ⟨hst, hne⟩, hp]
  simp only [if_neg hte]

/-- C2: a record in `returning_to_ward` with a parseable
`returning_started_at` and a non-empty `time_end` is, once at least three
minutes have elapsed, moved by the sweep to `returned_to_ward` with
`postop_completed := true` when the completeness predicate holds and to
`postop_pending` with `postop_completed := false` when it fails, in both
cases stamping `returned_to_ward_at` and strictly increasing `version`;
before three minutes have elapsed the sweep leaves the record unchanged. -/
theorem returning_sweep_correct (now : PyDateTime) (e : ScheduleEntry) (t0 : PyDateTime)
    (hst : e.state = "returning_to_ward")
    (hp : parseIso? e.returning_started_at = some t0)
    (hte : e.time_end ≠ "") :
    ((180 : Int) ≤ (now.epochSeconds : Int) - (t0.epochSeconds : Int) →
      (tickReturningEntry now e).state =
        (if isPostopCompleteEntry e then "returned_to_ward" else "postop_pending") ∧
      (tickReturningEntry now e).postop_completed = isPostopCompleteEntry e ∧
      (tickReturningEntry now e).returned_to_ward_at = fmtIso now ∧
      (tickReturningEntry now e).returned_to_ward_at ≠ "" ∧
      e.version < (tickReturningEntry now e).version) ∧
    ((now.epochSeconds : Int) - (t0.epochSeconds : Int) < 180 →
      tickReturningEntry now e = e) := by
  rw [tickReturningEntry_ready now e t0 hst hp hte]
  constructor
  · intro hel
    rw [if_pos hel]
    cases hC : isPostopCompleteEntry e <;>
      simp [hC, fmtIso_ne_empty, bumpVersion_gt]
  · intro hel
    rw [if_neg (by omega)]

/-- C2 witness: the sweep applied to a concrete record 10 minutes after its
returning timestamp closes it as `returned_to_ward` with a bumped version. -/
theorem returning_sweep_correct_witness :
    (tickReturningEntry sampleNow sampleReturning).state = "returned_to_ward" ∧
      (tickReturningEntry sampleNow sampleReturning).postop_completed = true ∧
      sampleReturning.version < (tickReturningEntry sampleNow sampleReturning).version := by
  have h := (returning_sweep_correct sampleNow sampleReturning sampleT0
      (by decide) (by decide) (by decide)).1 (by decide)
  refine ⟨?_, ?_, h.2.2.2.2⟩
  · rw [h.1]; decide
  · rw [h.2.1]; decide

/-! ### C3 — version bumps on accepted mutations -/

/-- C3: the code violates the version invariant on two mutation paths.
A monitor op-start signal that advances `state` on a record whose
`time_start` is already set leaves `version` unchanged (the state advance in
`_scan_monitor_status_transitions` carries no bump), and the Wednesday
re-normalization pass rewrites `or_room` without touching `version`. -/
theorem version_not_bumped_on_mutation :
    ((scanApplyStatus sampleNow STATUS_OP_START
        { sampleEntry with time_start := "08:00" }).state = "operation_started" ∧
      ({ sampleEntry with time_start := "08:00" } : ScheduleEntry).state = "scheduled" ∧
      (scanApplyStatus sampleNow STATUS_OP_START
        { sampleEntry with time_start := "08:00" }).version = 5 ∧
      ({ sampleEntry with time_start := "08:00" } : ScheduleEntry).version = 5) ∧
    ((normalizeOwnerForWednesday [{ sampleEntry with doctor := "นพ.สุริยา คุณาชน" }]
        ⟨2026, 6, 3⟩).map (fun e => (e.or_room, e.version)) = [("OR1", 5)] ∧
      ({ sampleEntry with doctor := "นพ.สุริยา คุณาชน" } : ScheduleEntry).or_room = "OR3" ∧
      (⟨2026, 6, 3⟩ : PyDate).weekday = 2) := by
  decide

/-! ### C7 — the completeness predicate -/

/-- C7 counterexample: the code's completeness predicate accepts
`time_start = "25:00"`, `time_end = "26:00"` — not well-formed `HH:MM`
wall-clock times — so the claimed characterization ("true iff both times are
well-formed `HH:MM` …") fails at this record. -/
theorem postop_complete_not_iff_spec :
    isPostopCompleteEntry
        { sampleEntry with
          time_start := "25:00"
          time_end := "26:00"
          scrub := "x"
          ops := ["op"] } = true ∧
      specPostopComplete
        { sampleEntry with
          time_start := "25:00"
          time_end := "26:00"
          scrub := "x"
          ops := ["op"] } = false := by
  decide

/-- C7 (amended): the completeness predicate returns true iff `time_start`
and `time_end` are both non-empty, each splits at `":"` into exactly two
integer-parseable fields (magnitudes not range-checked), the end total
minutes are ≥ the start total minutes, at least one of
scrub/circulate/assist1/assist2 is non-empty, and at least one of the
operations or diagnoses lists is non-empty. -/
theorem postop_complete_iff (e : ScheduleEntry) :
    isPostopCompleteEntry e = true ↔
      (e.time_start ≠ "" ∧ e.time_end ≠ "" ∧
        ∃ t1 t2, hhmmToMinutes? e.time_start = some t1 ∧
          hhmmToMinutes? e.time_end = some t2 ∧ t1 ≤ t2 ∧
          (e.scrub ≠ "" ∨ e.circulate ≠ "" ∨ e.assist1 ≠ "" ∨ e.assist2 ≠ "") ∧
          (e.ops ≠ [] ∨ e.diags ≠ [])) := by
  unfold isPostopCompleteEntry
  constructor
  · intro h
    by_cases h0 : e.time_start = "" ∨ e.time_end = ""
    · rw [if_pos h0] at h; exact absurd h (by simp)
    · rw [if_neg h0] at h
      push_neg at h0
      refine ⟨h0.1, h0.2, ?_⟩
      cases h1 : hhmmToMinutes? e.time_start with
      | none => rw [h1] at h; cases h2 : hhmmToMinutes? e.time_end <;> rw [h2] at h <;> simp at h
      | some t1 =>
        cases h2 : hhmmToMinutes? e.time_end with
        | none => rw [h1, h2] at h; simp at h
        | some t2 =>
          rw [h1, h2] at h
          have h' : (if t2 < t1 then false
              else if e.scrub = "" ∧ e.circulate = "" ∧ e.assist1 = "" ∧ e.assist2 = "" then false
              else if e.ops = [] ∧ e.diags = [] then false else true) = true := h
          by_cases hlt : t2 < t1
          · rw [if_pos hlt] at h'; exact absurd h' (by simp)
          · rw [if_neg hlt] at h'
            by_cases hstaff : e.scrub = "" ∧ e.circulate = "" ∧ e.assist1 = "" ∧ e.assist2 = ""
            · rw [if_pos hstaff] at h'; exact absurd h' (by simp)
            · rw [if_neg hstaff] at h'
              by_cases hops : e.ops = [] ∧ e.diags = []
              · rw [if_pos hops] at h'; exact absurd h' (by simp)
              · exact ⟨t1, t2, rfl, rfl, by omega, by tauto, by tauto⟩
  · rintro ⟨h1, h2, t1, t2, e1, e2, hle, hstaff, hops⟩
    rw [if_neg (by tauto), e1, e2]
    show (if t2 < t1 then false
        else if e.scrub = "" ∧ e.circulate = "" ∧ e.assist1 = "" ∧ e.assist2 = "" then false
        else if e.ops = [] ∧ e.diags = [] then false else true) = true
    rw [if_neg (by omega), if_neg (by tauto), if_neg (by tauto)]

/-- C7 (amended) witness: the characterization evaluated at a concrete
complete record. -/
theorem postop_complete_iff_witness :
    isPostopCompleteEntry sampleReturning = true ↔
      (sampleReturning.time_start ≠ "" ∧ sampleReturning.time_end ≠ "" ∧
        ∃ t1 t2, hhmmToMinutes? sampleReturning.time_start = some t1 ∧
          hhmmToMinutes? sampleReturning.time_end = some t2 ∧ t1 ≤ t2 ∧
          (sampleReturning.scrub ≠ "" ∨ sampleReturning.circulate ≠ "" ∨
            sampleReturning.assist1 ≠ "" ∨ sampleReturning.assist2 ≠ "") ∧
          (sampleReturning.ops ≠ [] ∨ sampleReturning.diags ≠ [])) :=
  postop_complete_iff sampleReturning

/-! ### C6 — Wednesday owner re-normalization -/

/-- C6: on a non-Wednesday the owner re-normalization pass returns the entry
list unchanged; on a Wednesday it maps every entry through a per-entry fix
that leaves any record whose inferred surgeon normalizes to the first
designated owner with `or_room = "OR1"` and any record whose inferred
surgeon normalizes to the second designated owner with `or_room = "OR6"`,
overriding whatever room was stored. -/
theorem wednesday_owner_normalization (entries : List ScheduleEntry) (d : PyDate) :
    (d.weekday ≠ 2 → normalizeOwnerForWednesday entries d = entries) ∧
    (d.weekday = 2 →
      normalizeOwnerForWednesday entries d = entries.map wednesdayFix ∧
      (∀ e : ScheduleEntry,
        normalizeDoctorName (inferDoctorFromEntry e) = "นพ.สุริยา คุณาชน" →
          (wednesdayFix e).or_room = "OR1") ∧
      (∀ e : ScheduleEntry,
        normalizeDoctorName (inferDoctorFromEntry e) = "พญ.รัฐพร ตั้งเพียร" →
          (wednesdayFix e).or_room = "OR6")) := by
  constructor
  · intro h
    unfold normalizeOwnerForWednesday
    rw [if_pos h]
  · intro h
    refine ⟨by unfold normalizeOwnerForWednesday; rw [if_neg (by simp [h])], ?_, ?_⟩
    · intro e he
      have hb : (normalizeDoctorName "นพ.สุริยา คุณาชน" == "นพ.สุริยา คุณาชน") = true := by
        decide
      simp only [wednesdayFix, OWNER_WED_DOCTOR2OR, he, List.find?_cons, hb, Prod.fst,
        Prod.snd]
      split
      · rfl
      · next hne => simpa using hne
    · intro e he
      have hb1 : (normalizeDoctorName "นพ.สุริยา คุณาชน" == "พญ.รัฐพร ตั้งเพียร") = false := by
        decide
      have hb2 : (normalizeDoctorName "พญ.รัฐพร ตั้งเพียร" == "พญ.รัฐพร ตั้งเพียร") = true := by
        decide
      simp only [wednesdayFix, OWNER_WED_DOCTOR2OR, he, List.find?_cons, hb1, hb2,
        Prod.fst, Prod.snd]
      split
      · rfl
      · next hne => simpa using hne

/-- C6 witness: a record inferred to the first owner (via the alias table)
on Wednesday 2026-06-03 gets `OR1` forced over its stored `OR3`; the same
list on Friday 2026-06-05 is returned unchanged. -/
theorem wednesday_owner_normalization_witness :
    normalizeOwnerForWednesday [{ sampleEntry with doctor := "นพ.สุริยา" }] ⟨2026, 6, 3⟩ =
      [{ sampleEntry with doctor := "นพ.สุริยา" }].map wednesdayFix ∧
    (wednesdayFix { sampleEntry with doctor := "นพ.สุริยา" }).or_room = "OR1" ∧
    normalizeOwnerForWednesday [{ sampleEntry with doctor := "นพ.สุริยา" }] ⟨2026, 6, 5⟩ =
      [{ sampleEntry with doctor := "นพ.สุริยา" }] := by
  have h2 := (wednesday_owner_normalization
      [{ sampleEntry with doctor := "นพ.สุริยา" }] ⟨2026, 6, 3⟩).2 (by decide)
  exact ⟨h2.1, h2.2.1 _ (by decide),
    (wednesday_owner_normalization
      [{ sampleEntry with doctor := "นพ.สุริยา" }] ⟨2026, 6, 5⟩).1 (by decide)⟩

/-! ### The external patch operation (C8, C4, C1) -/

theorem applyExternalUpdate_focus (now : PyDateTime) (pre : List ScheduleEntry)
    (e : ScheduleEntry) (post : List ScheduleEntry) (p : Patch)
    (hpre : ∀ f ∈ pre, entryUid f ≠ entryUid e) :
    applyExternalUpdate now (pre ++ e :: post) (entryUid e) p =
      ⟨(applyToEntry now e p).1, (applyToEntry now e p).2.1,
        pre ++ (applyToEntry now e p).2.2 :: post⟩ := by
  induction pre with
  | nil => simp [applyExternalUpdate]
  | cons f fs ih =>
    have hf : entryUid f ≠ entryUid e := hpre f (List.mem_cons_self f fs)
    have ih' := ih (fun g hg => hpre g (List.mem_cons_of_mem f hg))
    simp only [List.cons_append, applyExternalUpdate, if_neg hf, List.append_eq, ih']

/-- C8: a mark-returning patch addressed to a record with an empty `time_end`
returns `False`, surfaces a non-empty human-readable message, and leaves the
entry list (hence every field of the record) unchanged; addressed to a record
with a non-empty `time_end` it returns `True`, sets
`state = "returning_to_ward"`, and sets `returning_started_at` to the current
timestamp (also clearing `postop_completed`/`returned_to_ward_at` and bumping
`version`). -/
theorem mark_returning_semantics (now : PyDateTime) (pre : List ScheduleEntry)
    (e : ScheduleEntry) (post : List ScheduleEntry) (p : Patch)
    (hpre : ∀ f ∈ pre, entryUid f ≠ entryUid e)
    (hint : patchIntent p = "mark_returning") :
    (e.time_end = "" →
      applyExternalUpdate now (pre ++ e :: post) (entryUid e) p =
        ⟨false, msgCannotReturn, pre ++ e :: post⟩ ∧ msgCannotReturn ≠ "") ∧
    (e.time_end ≠ "" →
      applyExternalUpdate now (pre ++ e :: post) (entryUid e) p =
        ⟨true, msgMarkedReturning,
          pre ++ { e with state := "returning_to_ward",
                          returning_started_at := fmtIso now,
                          postop_completed := false, returned_to_ward_at := "",
                          version := bumpVersion e.version } :: post⟩) := by
  rw [applyExternalUpdate_focus now pre e post p hpre]
  constructor
  · intro hte
    refine ⟨?_, by decide⟩
    unfold applyToEntry
    rw [if_pos hint, if_pos hte]
  · intro hte
    unfold applyToEntry
    rw [if_pos hint, if_neg hte]

/-- C8 witness: the two branches evaluated on concrete records. -/
theorem mark_returning_semantics_witness :
    applyExternalUpdate sampleNow [sampleEntry] (entryUid sampleEntry)
        { Patch.empty with intent := some "mark_returning" } =
      ⟨false, msgCannotReturn, [sampleEntry]⟩ ∧
    applyExternalUpdate sampleNow [{ sampleEntry with time_end := "11:00" }]
        (entryUid { sampleEntry with time_end := "11:00" })
        { Patch.empty with intent := some "mark_returning" } =
      ⟨true, msgMarkedReturning,
        [{ sampleEntry with
            time_end := "11:00"
            state := "returning_to_ward"
            returning_started_at := fmtIso sampleNow
            postop_completed := false
            returned_to_ward_at := ""
            version := bumpVersion sampleEntry.version }]⟩ := by
  constructor
  · exact ((mark_returning_semantics sampleNow [] sampleEntry []
      { Patch.empty with intent := some "mark_returning" }
      (by simp) (by decide)).1 (by decide)).1
  · exact (mark_returning_semantics sampleNow [] { sampleEntry with time_end := "11:00" } []
      { Patch.empty with intent := some "mark_returning" }
      (by simp) (by decide)).2 (by decide)

/-- C4 counterexample: a patch carrying `state="scheduled"` applied to a
record in `"operation_ended"` is accepted and moves the stored state
backward to `"scheduled"`, instead of leaving it unchanged as claimed. -/
theorem patch_moves_state_backward :
    ({ sampleEntry with state := "operation_ended" } : ScheduleEntry).state =
        "operation_ended" ∧
      (applyExternalUpdate sampleNow [{ sampleEntry with state := "operation_ended" }]
        (entryUid { sampleEntry with state := "operation_ended" })
        { Patch.empty with state := some "scheduled" }).ok = true ∧
      (applyExternalUpdate sampleNow [{ sampleEntry with state := "operation_ended" }]
        (entryUid { sampleEntry with state := "operation_ended" })
        { Patch.empty with state := some "scheduled" }).entries.map
        (fun e => e.state) = ["scheduled"] := by
  decide

/-- C4 (amended): the generic patch operation accepts the patch, overwrites
`state` with whatever allow-listed value the patch carries — including
values earlier in the lifecycle (no backward refusal) — and, whenever the
patched record ends up in `returning_to_ward` with an empty
`returning_started_at` (in particular when the patch carries
`state="returning_to_ward"` to a record without one and does not supply a
timestamp itself), sets `returning_started_at` to the current timestamp. -/
theorem generic_patch_semantics (now : PyDateTime) (pre : List ScheduleEntry)
    (e : ScheduleEntry) (post : List ScheduleEntry) (p : Patch)
    (hpre : ∀ f ∈ pre, entryUid f ≠ entryUid e)
    (hint : patchIntent p ≠ "mark_returning") :
    applyExternalUpdate now (pre ++ e :: post) (entryUid e) p =
      ⟨true, msgPatched, pre ++ applyGenericPatch now e p :: post⟩ ∧
    (∀ s, p.state = some s → (patchFields e p).state = s) ∧
    (p.state = some "returning_to_ward" → p.returning_started_at = none →
      e.returning_started_at = "" →
      (applyGenericPatch now e p).returning_started_at = fmtIso now) := by
  refine ⟨?_, ?_, ?_⟩
  · rw [applyExternalUpdate_focus now pre e post p hpre]
    unfold applyToEntry
    rw [if_neg hint]
  · intro s hs
    simp [patchFields, hs]
  · intro hs hr he
    unfold applyGenericPatch
    rw [if_pos (by simp [patchFields, hs, hr, he])]

/-- C4 (amended) witness: a concrete backward patch is applied, and a
concrete `state="returning_to_ward"` patch auto-stamps
`returning_started_at`. -/
theorem generic_patch_semantics_witness :
    applyExternalUpdate sampleNow [{ sampleEntry with state := "operation_ended" }]
        (entryUid { sampleEntry with state := "operation_ended" })
        { Patch.empty with state := some "scheduled" } =
      ⟨true, msgPatched,
        [applyGenericPatch sampleNow { sampleEntry with state := "operation_ended" }
          { Patch.empty with state := some "scheduled" }]⟩ ∧
    (patchFields { sampleEntry with state := "operation_ended" }
        { Patch.empty with state := some "scheduled" }).state = "scheduled" ∧
    (applyGenericPatch sampleNow sampleEntry
        { Patch.empty with state := some "returning_to_ward" }).returning_started_at =
      fmtIso sampleNow := by
  have h1 := generic_patch_semantics sampleNow [] { sampleEntry with state := "operation_ended" }
    [] { Patch.empty with state := some "scheduled" } (by simp) (by decide)
  have h2 := generic_patch_semantics sampleNow [] sampleEntry []
    { Patch.empty with state := some "returning_to_ward" } (by simp) (by decide)
  exact ⟨h1.1, h1.2.1 _ rfl, h2.2.2 rfl rfl rfl⟩

/-- C1 counterexample: a generic patch whose dict directly carries
`state="returning_to_ward"`, addressed to a record whose `time_end` is
empty, is accepted and leaves the store with a record in
`returning_to_ward` and empty `time_end`, violating the claimed invariant. -/
theorem returning_without_time_end_reachable :
    ({ sampleEntry with state := "operation_ended" } : ScheduleEntry).time_end = "" ∧
      (applyExternalUpdate sampleNow [{ sampleEntry with state := "operation_ended" }]
        (entryUid { sampleEntry with state := "operation_ended" })
        { Patch.empty with state := some "returning_to_ward" }).ok = true ∧
      (applyExternalUpdate sampleNow [{ sampleEntry with state := "operation_ended" }]
        (entryUid { sampleEntry with state := "operation_ended" })
        { Patch.empty with state := some "returning_to_ward" }).entries.map
        (fun e => (e.state, e.time_end)) = [("returning_to_ward", "")] := by
  decide

theorem setTimeStartIfEmpty_state (now : PyDateTime) (e : ScheduleEntry) :
    (setTimeStartIfEmpty now e).state = e.state := by
  unfold setTimeStartIfEmpty; split <;> rfl

theorem setTimeStartIfEmpty_time_end (now : PyDateTime) (e : ScheduleEntry) :
    (setTimeStartIfEmpty now e).time_end = e.time_end := by
  unfold setTimeStartIfEmpty; split <;> rfl

theorem setTimeEndIfEmpty_state (now : PyDateTime) (e : ScheduleEntry) :
    (setTimeEndIfEmpty now e).state = e.state := by
  unfold setTimeEndIfEmpty; split <;> rfl

theorem setTimeEndIfEmpty_time_end_ne (now : PyDateTime) (e : ScheduleEntry) :
    (setTimeEndIfEmpty now e).time_end ≠ "" := by
  unfold setTimeEndIfEmpty; split
  · exact fmtHHMM_ne_empty now
  · next h => exact h

theorem scanApplyStatus_inv (now : PyDateTime) (status : String) (e : ScheduleEntry)
    (h : entryInv e) : entryInv (scanApplyStatus now status e) := by
  unfold scanApplyStatus
  split
  · show entryInv (if (setTimeStartIfEmpty now e).state = "scheduled" ∨
        (setTimeStartIfEmpty now e).state = "in_or" ∨
        (setTimeStartIfEmpty now e).state = "operation_ended" ∨
        (setTimeStartIfEmpty now e).state = "postop_pending" ∨
        (setTimeStartIfEmpty now e).state = "" then
      { setTimeStartIfEmpty now e with state := "operation_started" }
      else setTimeStartIfEmpty now e)
    split
    · intro hc; exact absurd hc (by simp)
    · intro hc
      rw [setTimeStartIfEmpty_state] at hc
      rw [setTimeStartIfEmpty_time_end]
      exact h hc
  · split
    · show entryInv (if (setTimeEndIfEmpty now e).state = "operation_started" ∨
          (setTimeEndIfEmpty now e).state = "in_or" ∨
          (setTimeEndIfEmpty now e).state = "scheduled" ∨
          (setTimeEndIfEmpty now e).state = "" then
        { setTimeEndIfEmpty now e with state := "operation_ended" }
        else setTimeEndIfEmpty now e)
      split
      · intro hc; exact absurd hc (by simp)
      · intro _; exact setTimeEndIfEmpty_time_end_ne now e
    · split
      · by_cases hte : e.time_end = ""
        · rw [if_pos hte]; exact h
        · rw [if_neg hte]
          by_cases hst : e.state ≠ "returning_to_ward"
          · rw [if_pos hst]; intro _; exact hte
          · rw [if_neg hst]; exact h
      · exact h

theorem tickReturningEntry_inv (now : PyDateTime) (e : ScheduleEntry)
    (h : entryInv e) : entryInv (tickReturningEntry now e) := by
  unfold tickReturningEntry
  split
  · split
    · exact h
    · by_cases hte : e.time_end = ""
      · rw [if_pos hte]; exact h
      · rw [if_neg hte]
        split
        · split
          · intro hc; exact absurd hc (by simp)
          · intro hc; exact absurd hc (by simp)
        · exact h
  · exact h

theorem applyExternalUpdate_mark_inv (now : PyDateTime) (entries : List ScheduleEntry)
    (uid : String) (p : Patch) (hint : patchIntent p = "mark_returning")
    (h : ∀ e ∈ entries, entryInv e) :
    ∀ e' ∈ (applyExternalUpdate now entries uid p).entries, entryInv e' := by
  induction entries with
  | nil => intro e' he'; simp [applyExternalUpdate] at he'
  | cons f fs ih =>
    intro e' he'
    unfold applyExternalUpdate at he'
    by_cases hu : entryUid f = uid
    · rw [if_pos hu] at he'
      rcases List.mem_cons.mp he' with hh | ht
      · subst hh
        show entryInv ((applyToEntry now f p).2.2)
        unfold applyToEntry
        rw [if_pos hint]
        by_cases hte : f.time_end = ""
        · rw [if_pos hte]
          exact h f (List.mem_cons_self f fs)
        · rw [if_neg hte]
          intro _
          exact hte
      · exact h e' (List.mem_cons_of_mem f ht)
    · rw [if_neg hu] at he'
      rcases List.mem_cons.mp he' with hh | ht
      · rw [hh]; exact h f (List.mem_cons_self f fs)
      · exact ih (fun g hg => h g (List.mem_cons_of_mem f hg)) e' ht

/-- C1 (amended): the invariant "`state = returning_to_ward` implies a
non-empty `time_end`" is established at record creation (the constructor
with an empty `state` argument yields `state = "scheduled"`) and preserved
by every monitor signal transition, by the returning sweep, and by any patch
carrying the `mark_returning` intent.  (It is *not* preserved by a generic
patch whose dict directly sets `state="returning_to_ward"`; see the
counterexample.) -/
theorem returning_invariant_preserved :
    (∀ (now : PyDateTime) (status : String) (e : ScheduleEntry),
      entryInv e → entryInv (scanApplyStatus now status e)) ∧
    (∀ (now : PyDateTime) (e : ScheduleEntry),
      entryInv e → entryInv (tickReturningEntry now e)) ∧
    (∀ (now : PyDateTime) (entries : List ScheduleEntry) (uid : String) (p : Patch),
      patchIntent p = "mark_returning" → (∀ e ∈ entries, entryInv e) →
      ∀ e' ∈ (applyExternalUpdate now entries uid p).entries, entryInv e') ∧
    (∀ (nd : PyDate) (orr : String) (dt : Option PyDate) (ts hn nm : String) (ag : Int)
      (dp dc : String) (dg op : List String) (wd cs : String) (q : Int)
      (pr ur a1 a2 sc ci t1 t2 cu : String) (v : Int) (rs ra : String) (pc : Bool),
      entryInv (scheduleEntryMk nd orr dt ts hn nm ag dp dc dg op wd cs q pr ur
        a1 a2 sc ci t1 t2 cu v "" rs ra pc)) := by
  refine ⟨scanApplyStatus_inv, tickReturningEntry_inv, applyExternalUpdate_mark_inv, ?_⟩
  intro nd orr dt ts hn nm ag dp dc dg op wd cs q pr ur a1 a2 sc ci t1 t2 cu v rs ra pc
  intro hc
  exact absurd hc (by simp [scheduleEntryMk])

/-- C1 (amended) witness: the four parts applied at concrete inputs. -/
theorem returning_invariant_preserved_witness :
    entryInv (scanApplyStatus sampleNow STATUS_RETURNING sampleEntry) ∧
    entryInv (tickReturningEntry sampleNow sampleReturning) ∧
    (∀ e' ∈ (applyExternalUpdate sampleNow [sampleEntry] (entryUid sampleEntry)
        { Patch.empty with intent := some "mark_returning" }).entries, entryInv e') ∧
    entryInv (scheduleEntryMk ⟨2026, 6, 3⟩ "OR1" none "09:00" "1" "n" 1 "d" "dr" [] []
      "w" "Major" 0 "in" "Elective" "" "" "" "" "" "" "cu" 1 "" "" "" false) := by
  refine ⟨returning_invariant_preserved.1 sampleNow STATUS_RETURNING sampleEntry (by decide),
    returning_invariant_preserved.2.1 sampleNow sampleReturning (by decide),
    returning_invariant_preserved.2.2.1 sampleNow [sampleEntry] (entryUid sampleEntry)
      { Patch.empty with intent := some "mark_returning" } (by decide) ?_,
    returning_invariant_preserved.2.2.2 ⟨2026, 6, 3⟩ "OR1" none "09:00" "1" "n" 1 "d" "dr"
      [] [] "w" "Major" 0 "in" "Elective" "" "" "" "" "" "" "cu" 1 "" "" false⟩
  intro e he
  have : e = sampleEntry := by simpa using he
  rw [this]; decide

/-! ### C9 — auto-finish idempotence -/

theorem mem_setInsert_of_mem (s : List String) (x pid : String) (h : pid ∈ s) :
    pid ∈ setInsert s x := by
  unfold setInsert; split
  · exact h
  · exact List.mem_cons_of_mem x h

theorem mem_setDiscard_of_ne (s : List String) (x pid : String) (hne : pid ≠ x)
    (h : pid ∈ s) : pid ∈ setDiscard s x := by
  unfold setDiscard
  exact List.mem_filter.mpr ⟨h, by simpa using hne⟩

theorem autoFinishGo_no_call (finishOk : String → Bool) (m : List (String × String))
    (entries : List ScheduleEntry) (sent : List String) (pid : String)
    (h : pid ∈ sent ∨ statusOf m pid = "finished") :
    pid ∉ (autoFinishGo finishOk m entries sent).2 ∧
      (pid ∈ (autoFinishGo finishOk m entries sent).1 ∨
        statusOf m pid = "finished") := by
  induction entries generalizing sent with
  | nil => simpa [autoFinishGo] using h
  | cons e rest ih =>
    unfold autoFinishGo
    by_cases hc : isPostopCompleteEntry e
    · rw [if_neg (by simp [hc])]
      by_cases hp0 : pickupIdForEntry e = ""
      · rw [if_pos hp0]; exact ih sent h
      · rw [if_neg hp0]
        by_cases hf : statusOf m (pickupIdForEntry e) = "finished"
        · rw [if_pos hf]
          apply ih
          by_cases hpe : pid = pickupIdForEntry e
          · right; rw [hpe]; exact hf
          · rcases h with hs | hfin
            · exact Or.inl (mem_setDiscard_of_ne sent _ pid hpe hs)
            · exact Or.inr hfin
        · rw [if_neg hf]
          by_cases hin : pid ∈ sent ∧ pid = pickupIdForEntry e
          · rw [if_pos (by rw [← hin.2]; exact List.elem_eq_true_of_mem hin.1)]
            exact ih sent h
          · by_cases hmem : pickupIdForEntry e ∈ sent
            · rw [if_pos (List.elem_eq_true_of_mem hmem)]
              exact ih sent h
            · rw [if_neg (by simpa using hmem)]
              have hpe : pid ≠ pickupIdForEntry e := by
                intro hEq
                rcases h with hs | hfin
                · exact hmem (hEq ▸ hs)
                · exact hf (hEq ▸ hfin)
              have hrec := ih (if finishOk (pickupIdForEntry e)
                  then setInsert sent (pickupIdForEntry e) else sent)
                (by
                  rcases h with hs | hfin
                  · left; split
                    · exact mem_setInsert_of_mem sent _ pid hs
                    · exact hs
                  · exact Or.inr hfin)
              refine ⟨?_, hrec.2⟩
              intro hmem2
              rcases List.mem_cons.mp hmem2 with hEq | htail
              · exact hpe hEq
              · exact hrec.1 htail
    · rw [if_pos (by simp [hc])]
      exact ih sent h

/-- C9: the dispatch auto-finish sweep is idempotent — for a fixed entry
list and a fixed external status map, a second run immediately after a first
issues no finish call for any pickup id that is in the locally-tracked
already-finished set produced by the first run (which contains every id the
first run successfully finished) or that the status map reports as
`"finished"`. -/
theorem auto_finish_idempotent (finishOk : String → Bool)
    (entries : List ScheduleEntry) (m : List (String × String))
    (sent0 s1 : List String) (c1 : List String) (pid : String)
    (h1 : autoFinishRunnerCases finishOk entries m sent0 = (s1, c1))
    (hp : pid ∈ s1 ∨ statusOf m pid = "finished") :
    pid ∉ (autoFinishRunnerCases finishOk entries m s1).2 := by
  unfold autoFinishRunnerCases
  split
  · simp
  · exact (autoFinishGo_no_call finishOk m entries s1 pid hp).1

/-- C9 witness: a concrete first run finishes the sample case and records
its pickup id; the second run issues no call for it. -/
theorem auto_finish_idempotent_witness :
    "2026-06-03:123456:OR3" ∉ (autoFinishRunnerCases (fun _ => true) [sampleReturning]
      [("2026-06-03:123456:OR3", "waiting")] ["2026-06-03:123456:OR3"]).2 := by
  apply auto_finish_idempotent (fun _ => true) [sampleReturning]
    [("2026-06-03:123456:OR3", "waiting")] [] ["2026-06-03:123456:OR3"]
    ["2026-06-03:123456:OR3"] "2026-06-03:123456:OR3"
  · decide
  · left; exact List.mem_singleton.mpr rfl

/-! ### C10 — serialization round trip -/

theorem digit_facts : ∀ r : Nat, r < 10 →
    digitVal (Char.ofNat (48 + r)) = r ∧ (Char.ofNat (48 + r)).isDigit = true := by
  decide

theorem digitVal_digitChar (n : Nat) : digitVal (digitChar n) = n % 10 :=
  (digit_facts (n % 10) (Nat.mod_lt _ (by norm_num))).1

theorem isDigit_digitChar (n : Nat) : (digitChar n).isDigit = true :=
  (digit_facts (n % 10) (Nat.mod_lt _ (by norm_num))).2

theorem daysInMonth_le (y m : Nat) : daysInMonth y m ≤ 31 := by
  unfold daysInMonth
  split
  · split <;> omega
  · split <;> omega

theorem parse_dateStr (d : PyDate) (h : d.valid) : parseIsoDate? (dateStr d) = some d := by
  obtain ⟨y, mo, da⟩ := d
  obtain ⟨h1, h2, h3, h4, h5, h6⟩ := h
  replace h1 : 1 ≤ y := h1
  replace h2 : y ≤ 9999 := h2
  replace h3 : 1 ≤ mo := h3
  replace h4 : mo ≤ 12 := h4
  replace h5 : 1 ≤ da := h5
  replace h6 : da ≤ daysInMonth y mo := h6
  have hda : da ≤ 31 := le_trans h6 (daysInMonth_le y mo)
  unfold dateStr parseIsoDate?
  simp only [pad4chars, pad2chars, List.cons_append, List.nil_append]
  simp only [List.all_cons, List.all_nil, isDigit_digitChar, Bool.and_true, Bool.and_self,
    digitVal_digitChar, and_true, true_and]
  rw [if_pos trivial]
  have hy : ((y / 1000 % 10 * 10 + y / 100 % 10) * 10 + y / 10 % 10) * 10 + y % 10 = y := by
    omega
  have hmo : mo / 10 % 10 * 10 + mo % 10 = mo := by omega
  have hda2 : da / 10 % 10 * 10 + da % 10 = da := by omega
  rw [hy, hmo, hda2]
  rw [if_pos (And.intro h3 (And.intro h4 (And.intro h5 (And.intro h6 h1))))]

/-- C10 counterexample: the round trip is not the identity on every record
with a valid date.  The external patch API stores string values raw
(`str(value or "")`, no stripping), so a ward patch `" X "` and a state
patch `""` yield persisted records on which `from_dict(to_dict(·))` strips
the ward to `"X"` and promotes the empty state to `"scheduled"` — reloading
loses the stored values. -/
theorem roundtrip_loses_patch_values :
    ((applyGenericPatch sampleNow sampleEntry
        { Patch.empty with ward := some " X " }).ward = " X " ∧
      (applyGenericPatch sampleNow sampleEntry
        { Patch.empty with ward := some " X " }).date.valid ∧
      (fromDict ⟨2026, 1, 1⟩ (toDict (applyGenericPatch sampleNow sampleEntry
        { Patch.empty with ward := some " X " }))).ward = "X" ∧
      fromDict ⟨2026, 1, 1⟩ (toDict (applyGenericPatch sampleNow sampleEntry
          { Patch.empty with ward := some " X " })) ≠
        applyGenericPatch sampleNow sampleEntry { Patch.empty with ward := some " X " }) ∧
    ((applyGenericPatch sampleNow sampleEntry
        { Patch.empty with state := some "" }).state = "" ∧
      (fromDict ⟨2026, 1, 1⟩ (toDict (applyGenericPatch sampleNow sampleEntry
        { Patch.empty with state := some "" }))).state = "scheduled" ∧
      fromDict ⟨2026, 1, 1⟩ (toDict (applyGenericPatch sampleNow sampleEntry
          { Patch.empty with state := some "" })) ≠
        applyGenericPatch sampleNow sampleEntry { Patch.empty with state := some "" }) := by
  decide

/-- C10 (amended): for every record whose `date` is a valid date,
`from_dict(to_dict(e))` yields the record with the constructor's
normalizations re-applied (hn/name/ward/case_size stripped, negative
age/queue zeroed, empty urgency defaulted, empty case_uid regenerated,
zero version promoted to 1, empty state promoted to "scheduled") and every
other persisted field preserved; the round trip is the identity exactly on
records already satisfying those normalizations — which constructor outputs
do, but records mutated by the raw external patch API need not. -/
theorem from_to_dict_renormalize (today : PyDate) (e : ScheduleEntry)
    (hval : e.date.valid) :
    fromDict today (toDict e) = renormalizeEntry e ∧
    (entryWf e → renormalizeEntry e = e) := by
  constructor
  · simp only [fromDict, toDict, scheduleEntryMk, parse_dateStr e.date hval, Option.getD_some,
      renormalizeEntry]
  · intro hwf
    obtain ⟨w1, w2, w3, w4, w5, w6, w7, w8, w9, w10, _⟩ := hwf
    simp only [renormalizeEntry, w1, w2, w3, w4, intIfDigits]
    simp [w5, w6, w7, w8, w9, w10]

/-- C10 (amended) witness: the round trip evaluated on a concrete
constructor-shaped record, where it is the identity. -/
theorem from_to_dict_renormalize_witness :
    fromDict ⟨2026, 1, 1⟩ (toDict sampleEntry) = renormalizeEntry sampleEntry ∧
      renormalizeEntry sampleEntry = sampleEntry :=
  ⟨(from_to_dict_renormalize ⟨2026, 1, 1⟩ sampleEntry (by decide)).1,
   (from_to_dict_renormalize ⟨2026, 1, 1⟩ sampleEntry (by decide)).2 (by decide)⟩

/-! ### C5 — CLOSED rooms are never resolved -/

theorem mem_planFlat (plan : List (String × List Rule)) (room : String) (r : Rule) :
    (room, r) ∈ planFlat plan ↔ ∃ rules, (room, rules) ∈ plan ∧ r ∈ rules := by
  induction plan with
  | nil => simp [planFlat]
  | cons p rest ih =>
    obtain ⟨rm, rules⟩ := p
    simp only [planFlat, List.mem_append, List.mem_map, List.mem_cons, ih]
    constructor
    · rintro (⟨r', hr', heq⟩ | ⟨rules', h1, h2⟩)
      · have e1 : rm = room := congrArg Prod.fst heq
        have e2 : r' = r := congrArg Prod.snd heq
        subst e1; subst e2
        exact ⟨rules, Or.inl rfl, hr'⟩
      · exact ⟨rules', Or.inr h1, h2⟩
    · rintro ⟨rules', hc | hmem, hr⟩
      · have e1 : room = rm := congrArg Prod.fst hc
        have e2 : rules' = rules := congrArg Prod.snd hc
        subst e2
        exact Or.inl ⟨r, hr, by rw [e1]⟩
      · exact Or.inr ⟨rules', hmem, hr⟩

theorem not_closed_of_matchDoctor (tok nm : String) (h : matchDoctor tok nm = true) :
    CLOSED_TOKENS.contains tok = false := by
  unfold matchDoctor at h
  by_cases h1 : tok = ""
  · rw [if_pos h1] at h; exact absurd h (by simp)
  · rw [if_neg h1] at h
    by_cases h2 : CLOSED_TOKENS.contains tok = true
    · rw [if_pos h2] at h; exact absurd h (by simp)
    · simpa using h2

theorem ruleMatchesService_exists (r : Rule) (st : String)
    (h : ruleMatchesService r st = true) :
    st ≠ "" ∧ ∃ tok ∈ ruleTokens r, CLOSED_TOKENS.contains tok = false ∧
      (tok = st ∨ (memberLookup st).contains (normalizeDoctorName tok) = true) := by
  unfold ruleMatchesService at h
  by_cases h0 : st = ""
  · rw [if_pos h0] at h; exact absurd h (by simp)
  · rw [if_neg h0] at h
    refine ⟨h0, ?_⟩
    obtain ⟨tok, hmem, hp⟩ := List.any_eq_true.mp h
    simp only [Bool.and_eq_true, Bool.not_eq_true', Bool.or_eq_true, beq_iff_eq,
      decide_eq_true_eq] at hp
    obtain ⟨⟨hne, hcl⟩, hlink⟩ := hp
    refine ⟨tok, hmem, hcl, ?_⟩
    rcases hlink with (heq | ⟨_, heq⟩) | hcont
    · exact Or.inl heq
    · exact Or.inl heq
    · exact Or.inr hcont

theorem phaseA_exists (wk : Nat) (period nm : String) (pr : String × Rule)
    (h : phaseA wk period nm pr = true) :
    ∃ tok ∈ ruleTokens pr.2, CLOSED_TOKENS.contains tok = false ∧
      matchDoctor tok nm = true := by
  unfold phaseA at h
  simp only [Bool.and_eq_true] at h
  obtain ⟨tok, hmem, hmd⟩ := List.any_eq_true.mp h.2
  exact ⟨tok, hmem, not_closed_of_matchDoctor tok nm hmd, hmd⟩

theorem phaseB_exists (wk : Nat) (nm : String) (pr : String × Rule)
    (h : phaseB wk nm pr = true) :
    ∃ tok ∈ ruleTokens pr.2, CLOSED_TOKENS.contains tok = false ∧
      matchDoctor tok nm = true := by
  unfold phaseB at h
  simp only [Bool.and_eq_true] at h
  obtain ⟨tok, hmem, hmd⟩ := List.any_eq_true.mp h.2
  exact ⟨tok, hmem, not_closed_of_matchDoctor tok nm hmd, hmd⟩

theorem phaseC_exists (nm : String) (pr : String × Rule)
    (h : phaseC nm pr = true) :
    ∃ tok ∈ ruleTokens pr.2, CLOSED_TOKENS.contains tok = false ∧
      matchDoctor tok nm = true := by
  unfold phaseC at h
  simp only [Bool.and_eq_true] at h
  obtain ⟨tok, hmem, hmd⟩ := List.any_eq_true.mp h.2.2
  exact ⟨tok, (List.mem_filter.mp hmem).1, not_closed_of_matchDoctor tok nm hmd, hmd⟩

theorem pickOr_build (d : PyDate) (nm res : String) (pr : String × Rule)
    (hmem : pr ∈ planFlat (weeklyPlan d.weekday)) (h : pr.1 = res)
    (tok : String) (htok : tok ∈ ruleTokens pr.2)
    (hcl : CLOSED_TOKENS.contains tok = false)
    (hlink : matchDoctor tok nm = true ∨
      (doctorServiceToken nm ≠ "" ∧
        (tok = doctorServiceToken nm ∨
          (memberLookup (doctorServiceToken nm)).contains (normalizeDoctorName tok) = true))) :
    ∃ rules rule tok2, (res, rules) ∈ weeklyPlan d.weekday ∧ rule ∈ rules ∧
      tok2 ∈ ruleTokens rule ∧ CLOSED_TOKENS.contains tok2 = false ∧
      (matchDoctor tok2 nm = true ∨
        (doctorServiceToken nm ≠ "" ∧
          (tok2 = doctorServiceToken nm ∨
            (memberLookup (doctorServiceToken nm)).contains (normalizeDoctorName tok2) = true))) := by
  obtain ⟨room, rule⟩ := pr
  obtain ⟨rules, hr1, hr2⟩ := (mem_planFlat _ _ _).mp hmem
  exact ⟨rules, rule, tok, h ▸ hr1, hr2, htok, hcl, hlink⟩

theorem pickOr_spec_aux (d : PyDate) (t nm res : String)
    (h : pickOrByDoctor d t nm = res) (hne : res ≠ "") :
    ∃ rules rule tok2, (res, rules) ∈ weeklyPlan d.weekday ∧ rule ∈ rules ∧
      tok2 ∈ ruleTokens rule ∧ CLOSED_TOKENS.contains tok2 = false ∧
      (matchDoctor tok2 nm = true ∨
        (doctorServiceToken nm ≠ "" ∧
          (tok2 = doctorServiceToken nm ∨
            (memberLookup (doctorServiceToken nm)).contains (normalizeDoctorName tok2) = true))) := by
  unfold pickOrByDoctor at h
  by_cases h0 : nm = ""
  · rw [if_pos h0] at h; exact absurd h.symm hne
  rw [if_neg h0] at h
  by_cases h1 : weeklyPlan d.weekday = []
  · rw [if_pos h1] at h; exact absurd h.symm hne
  rw [if_neg h1] at h
  cases hA : List.find? (phaseA (weekOfMonth d) (timeToPeriod t) nm)
      (planFlat (weeklyPlan d.weekday)) with
  | some pr =>
    simp only [hA] at h
    obtain ⟨tok, htok, hcl, hmd⟩ := phaseA_exists _ _ _ _ (List.find?_some hA)
    exact pickOr_build d nm res pr (List.mem_of_find?_eq_some hA) h tok htok hcl (Or.inl hmd)
  | none =>
  simp only [hA] at h
  cases hB : (if timeToPeriod t = "ANY" then
      List.find? (phaseB (weekOfMonth d) nm) (planFlat (weeklyPlan d.weekday))
    else none) with
  | some pr =>
    simp only [hB] at h
    have hBf : List.find? (phaseB (weekOfMonth d) nm) (planFlat (weeklyPlan d.weekday)) =
        some pr := by
      by_cases hper : timeToPeriod t = "ANY"
      · rwa [if_pos hper] at hB
      · rw [if_neg hper] at hB; exact Option.noConfusion hB
    obtain ⟨tok, htok, hcl, hmd⟩ := phaseB_exists _ _ _ (List.find?_some hBf)
    exact pickOr_build d nm res pr (List.mem_of_find?_eq_some hBf) h tok htok hcl (Or.inl hmd)
  | none =>
  simp only [hB] at h
  cases hC : List.find? (phaseC nm) (planFlat (weeklyPlan d.weekday)) with
  | some pr =>
    simp only [hC] at h
    obtain ⟨tok, htok, hcl, hmd⟩ := phaseC_exists _ _ (List.find?_some hC)
    exact pickOr_build d nm res pr (List.mem_of_find?_eq_some hC) h tok htok hcl (Or.inl hmd)
  | none =>
  simp only [hC] at h
  by_cases hst : doctorServiceToken nm = ""
  · rw [if_pos hst] at h; exact absurd h.symm hne
  rw [if_neg hst] at h
  cases hD : List.find? (phaseD (weekOfMonth d) (timeToPeriod t) (doctorServiceToken nm))
      (planFlat (weeklyPlan d.weekday)) with
  | some pr =>
    simp only [hD] at h
    have hp := List.find?_some hD
    unfold phaseD at hp
    simp only [Bool.and_eq_true] at hp
    obtain ⟨_, tok, htok, hcl, hlink⟩ := ruleMatchesService_exists _ _ hp.2
    exact pickOr_build d nm res pr (List.mem_of_find?_eq_some hD) h tok htok hcl
      (Or.inr ⟨hst, hlink⟩)
  | none =>
  simp only [hD] at h
  cases hE : List.find? (phaseE (doctorServiceToken nm)) (planFlat (weeklyPlan d.weekday)) with
  | some pr =>
    simp only [hE] at h
    have hp := List.find?_some hE
    unfold phaseE at hp
    obtain ⟨_, tok, htok, hcl, hlink⟩ := ruleMatchesService_exists _ _ hp
    exact pickOr_build d nm res pr (List.mem_of_find?_eq_some hE) h tok htok hcl
      (Or.inr ⟨hst, hlink⟩)
  | none =>
  simp only [hE] at h
  exact absurd h.symm hne

/-- C5: whenever the resolver returns a room, that room's rule list for the
case's weekday contains a rule with at least one non-CLOSED doctor token
that matches the surgeon — directly or via the alias table (`matchDoctor`),
or via the surgeon's service group (token equal to, or normalizing into,
the surgeon's service); a rule whose only tokens are `CLOSED`/`CLOSE` can
never be the one that produces the returned room. -/
theorem resolver_never_returns_closed (d : PyDate) (t nm : String)
    (hne : pickOrByDoctor d t nm ≠ "") :
    ∃ rules rule tok2, (pickOrByDoctor d t nm, rules) ∈ weeklyPlan d.weekday ∧
      rule ∈ rules ∧ tok2 ∈ ruleTokens rule ∧ CLOSED_TOKENS.contains tok2 = false ∧
      (matchDoctor tok2 nm = true ∨
        (doctorServiceToken nm ≠ "" ∧
          (tok2 = doctorServiceToken nm ∨
            (memberLookup (doctorServiceToken nm)).contains (normalizeDoctorName tok2) = true))) :=
  pickOr_spec_aux d t nm (pickOrByDoctor d t nm) rfl hne

/-- C5 witness: the resolver applied to a concrete surgeon on the first
Monday of June 2026 (resolving `OR1`). -/
theorem resolver_never_returns_closed_witness :
    ∃ rules rule tok2,
      (pickOrByDoctor ⟨2026, 6, 1⟩ "09:00" "นพ.สุริยา คุณาชน", rules) ∈
        weeklyPlan (PyDate.weekday ⟨2026, 6, 1⟩) ∧
      rule ∈ rules ∧ tok2 ∈ ruleTokens rule ∧ CLOSED_TOKENS.contains tok2 = false ∧
      (matchDoctor tok2 "นพ.สุริยา คุณาชน" = true ∨
        (doctorServiceToken "นพ.สุริยา คุณาชน" ≠ "" ∧
          (tok2 = doctorServiceToken "นพ.สุริยา คุณาชน" ∨
            (memberLookup (doctorServiceToken "นพ.สุริยา คุณาชน")).contains
              (normalizeDoctorName tok2) = true))) :=
  resolver_never_returns_closed ⟨2026, 6, 1⟩ "09:00" "นพ.สุริยา คุณาชน" (by decide)

end Surgibot